import Mathlib

/-!
Verification of the ticketing-system canister (Azle / Internet Computer).

The repository carries two near-duplicate variants of the same canister:
the file `src/index.ts` (embedded below in namespace `V1`) and a second,
helper-based variant of the same module (namespace `V2`).  Both are
embedded shallowly:

* `Principal` identities are modelled as naturals;
* `nat64` / `nat32` values are modelled as `Nat` (the canister never
  performs arithmetic that could overflow: values are only stored and
  compared);
* each `StableBTreeMap` is an association list with insert-or-replace
  (`Store`); the canister only uses point get, containsKey, insert and
  full-value enumeration;
* `uuidv4` is modelled as a fresh-identifier counter threaded through the
  state (`State.nextId`): the generator is injected and assumed
  collision-free, so string identifiers are encoded as the naturals in
  generation order;
* the host-supplied caller identity (`ic.caller()`) and timestamp
  (`ic.time()`) become explicit `caller` / `now` arguments;
* fallible operations return `Except Error result` paired with the
  post-state.
-/

namespace TicketingICP

/-- A caller identity (`Principal`), modelled as a natural number. -/
abbrev Principal := Nat

/-- The error `Variant` of the canister.  The taxonomy of the design
document maps onto it as: Unauthenticated to `Unauthorized`, and
InvalidInput / InvalidState / Conflict all to `BadRequest` (the code uses
the single `BadRequest` constructor for each of those three situations). -/
inductive Error where
  | NotFound (msg : String)
  | Unauthorized (msg : String)
  | Forbidden (msg : String)
  | BadRequest (msg : String)
  | InternalError (msg : String)
deriving DecidableEq

/-- The `User` record. -/
structure User where
  id : Principal
  name : String
  role : String
  createdAt : Nat
  updatedAt : Nat
deriving DecidableEq

/-- The `Event` record; `id` is the generated identifier. -/
structure Event where
  id : Nat
  name : String
  date : Nat
  location : String
  organizerId : Principal
  createdAt : Nat
  updatedAt : Nat
deriving DecidableEq

/-- The `Ticket` record; `participantId` is the optional current holder. -/
structure Ticket where
  id : Nat
  role : String
  price : Nat
  eventId : Nat
  participantId : Option Principal
  organizerId : Principal
  createdAt : Nat
  updatedAt : Nat
deriving DecidableEq

/-- The `Transaction` record. -/
structure Transaction where
  id : Nat
  mode : String
  pay : Nat
  ticketId : Nat
  senderId : Option Principal
  participantId : Principal
  organizerId : Principal
  createdAt : Nat
  updatedAt : Nat
deriving DecidableEq

/-- Point lookup in an association list of key-value pairs. -/
def lookupKey (l : List (Nat × α)) (k : Nat) : Option α :=
  match l with
  | [] => none
  | kv :: rest => if kv.1 = k then some kv.2 else lookupKey rest k

/-- Insert-or-replace in an association list of key-value pairs. -/
def insertKey (l : List (Nat × α)) (k : Nat) (v : α) : List (Nat × α) :=
  match l with
  | [] => [(k, v)]
  | kv :: rest => if kv.1 = k then (k, v) :: rest else kv :: insertKey rest k v

/-- An Azle `StableBTreeMap`, modelled as an association list.  The
canister uses only `get`, `containsKey`, `insert` and `values`. -/
structure Store (α : Type) where
  entries : List (Nat × α)
deriving DecidableEq

/-- `StableBTreeMap.get`. -/
def Store.get (st : Store α) (k : Nat) : Option α := lookupKey st.entries k

/-- `StableBTreeMap.containsKey`. -/
def Store.containsKey (st : Store α) (k : Nat) : Bool := (st.get k).isSome

/-- `StableBTreeMap.insert` (insert-or-replace). -/
def Store.insert (st : Store α) (k : Nat) (v : α) : Store α := ⟨insertKey st.entries k v⟩

/-- `StableBTreeMap.values` (full enumeration of stored values). -/
def Store.values (st : Store α) : List α := st.entries.map Prod.snd

/-- Number of stored records. -/
def Store.size (st : Store α) : Nat := st.entries.length

/-- The whole canister state: the four stable maps plus the fresh
identifier counter that stands for the `uuidv4` generator. -/
structure State where
  users : Store User
  events : Store Event
  tickets : Store Ticket
  transactions : Store Transaction
  nextId : Nat
deriving DecidableEq

/-- The state of a freshly deployed canister: all four maps empty. -/
def initState : State :=
  { users := ⟨[]⟩, events := ⟨[]⟩, tickets := ⟨[]⟩, transactions := ⟨[]⟩, nextId := 0 }

/-- Well-formedness maintained by the canister: every stored record is
keyed by its own `id` field, and every generated identifier already in a
store is below the generator counter (freshness of future identifiers). -/
def State.WF (s : State) : Prop :=
  (∀ kv ∈ s.users.entries, (kv.2 : User).id = kv.1) ∧
  (∀ kv ∈ s.events.entries, (kv.2 : Event).id = kv.1 ∧ kv.1 < s.nextId) ∧
  (∀ kv ∈ s.tickets.entries, (kv.2 : Ticket).id = kv.1 ∧ kv.1 < s.nextId) ∧
  (∀ kv ∈ s.transactions.entries, (kv.2 : Transaction).id = kv.1 ∧ kv.1 < s.nextId)

instance (s : State) : Decidable s.WF := by
  unfold State.WF; infer_instance

/-- `USER_ROLE` of `src/index.ts`. -/
def USER_ROLE : List String := ["organizer", "participant"]

/-- `TICKET_ROLE` of `src/index.ts`. -/
def TICKET_ROLE : List String := ["vvip", "vip", "regular"]

/-! ## Variant 1: the canister of `src/index.ts` -/

namespace V1

/-- `createUser` of `src/index.ts`.  The `containsKey` guard is modelled
by matching on `get` (in the source the later `.Some` access is guarded
by the preceding `containsKey` check on the same key). -/
def createUser (s : State) (caller : Principal) (now : Nat) (name role : String) :
    Except Error User × State :=
  if s.users.containsKey caller then
    (.error (.BadRequest "You already have an account"), s)
  else if role ∉ USER_ROLE then
    (.error (.BadRequest "Please input a valid role: organizer or participant"), s)
  else
    let newUser : User :=
      { id := caller, name := name, role := role, createdAt := now, updatedAt := now }
    (.ok newUser, { s with users := s.users.insert newUser.id newUser })

/-- `getMe` of `src/index.ts` (query: no state change). -/
def getMe (s : State) (caller : Principal) : Except Error User :=
  match s.users.get caller with
  | none => .error (.Unauthorized "Create an account first")
  | some u => .ok u

/-- `createEvent` of `src/index.ts`.  Note the date guard is
`payload.date < ic.time()`: a date equal to the current time passes. -/
def createEvent (s : State) (caller : Principal) (now : Nat)
    (name : String) (date : Nat) (location : String) : Except Error Event × State :=
  match s.users.get caller with
  | none => (.error (.Unauthorized "Create an account first"), s)
  | some u =>
    if u.role ≠ "organizer" then (.error (.Forbidden "Only organizers can create events"), s)
    else if date < now then (.error (.BadRequest "Please input a valid date"), s)
    else
      let newEvent : Event :=
        { id := s.nextId, name := name, date := date, location := location,
          organizerId := caller, createdAt := now, updatedAt := now }
      (.ok newEvent,
        { s with events := s.events.insert newEvent.id newEvent, nextId := s.nextId + 1 })

/-- `getEvents` of `src/index.ts` (query). -/
def getEvents (s : State) : Except Error (List Event) := .ok s.events.values

/-- One ticket of a `createTickets` batch. -/
def newTicket (caller : Principal) (now : Nat) (role : String) (price : Nat)
    (eventId : Nat) (id : Nat) : Ticket :=
  { id := id, role := role, price := price, eventId := eventId,
    participantId := none, organizerId := caller, createdAt := now, updatedAt := now }

/-- The batch built by the `for` loop of `createTickets`: `quantity`
tickets with consecutive fresh identifiers starting at `base`. -/
def ticketBatch (caller : Principal) (now : Nat) (role : String) (price : Nat)
    (eventId : Nat) (base quantity : Nat) : List Ticket :=
  (List.range quantity).map (fun i => newTicket caller now role price eventId (base + i))

/-- Inserting every ticket of a batch, in order (the loop body's
`ticketStorage.insert(newTicket.id, newTicket)`). -/
def insertTickets (st : Store Ticket) (ts : List Ticket) : Store Ticket :=
  ts.foldl (fun acc t => acc.insert t.id t) st

/-- `createTickets` of `src/index.ts`.  There is no validation of
`quantity` or `price` in this variant; the loop simply runs `quantity`
times (zero times for `quantity = 0`). -/
def createTickets (s : State) (caller : Principal) (now : Nat) (quantity : Nat)
    (role : String) (price : Nat) (eventId : Nat) : Except Error (List Ticket) × State :=
  match s.users.get caller with
  | none => (.error (.Unauthorized "Create an account first"), s)
  | some u =>
    if u.role ≠ "organizer" then (.error (.Forbidden "Only organizers can create tickets"), s)
    else if role ∉ TICKET_ROLE then
      (.error (.BadRequest "Please input a valid role: vvip, vip or regular"), s)
    else match s.events.get eventId with
      | none => (.error (.NotFound ("Event with id " ++ toString eventId ++ " not found")), s)
      | some ev =>
        if ev.organizerId ≠ caller then
          (.error (.Forbidden "Only event owner can create tickets"), s)
        else if ev.date < now then (.error (.BadRequest "Event already started"), s)
        else
          let ts := ticketBatch caller now role price eventId s.nextId quantity
          (.ok ts,
            { s with tickets := insertTickets s.tickets ts, nextId := s.nextId + quantity })

/-- `getTicketsByEvent` of `src/index.ts` (query). -/
def getTicketsByEvent (s : State) (eventId : Nat) : Except Error (List Ticket) :=
  match s.events.get eventId with
  | none => .error (.NotFound ("Event with id " ++ toString eventId ++ " not found"))
  | some _ => .ok (s.tickets.values.filter (fun t => t.eventId == eventId))

/-- `buyTicket` of `src/index.ts`. -/
def buyTicket (s : State) (caller : Principal) (now : Nat) (pay ticketId : Nat) :
    Except Error Transaction × State :=
  match s.users.get caller with
  | none => (.error (.Unauthorized "Create an account first"), s)
  | some u =>
    if u.role ≠ "participant" then (.error (.Forbidden "Only participants can buy tickets"), s)
    else match s.tickets.get ticketId with
      | none => (.error (.NotFound ("Ticket with id " ++ toString ticketId ++ " not found")), s)
      | some t =>
        if t.price ≠ pay then
          (.error (.BadRequest ("Please pay the exact ticket price: " ++ toString t.price)), s)
        else if t.participantId.isSome then
          (.error (.BadRequest "Ticket has already been sold"), s)
        else
          let newTransaction : Transaction :=
            { id := s.nextId, mode := "buy", pay := pay, ticketId := ticketId,
              senderId := none, participantId := caller, organizerId := t.organizerId,
              createdAt := now, updatedAt := now }
          (.ok newTransaction,
            { s with
              tickets := s.tickets.insert t.id
                { t with participantId := some caller, updatedAt := now },
              transactions := s.transactions.insert newTransaction.id newTransaction,
              nextId := s.nextId + 1 })

/-- `transferTicket` of `src/index.ts`.  The ownership guard
`participantId.Some?.toText() !== caller.toText()` rejects both an unsold
ticket (`undefined` on the left) and a holder different from the caller,
i.e. it is `participantId ≠ some caller`. -/
def transferTicket (s : State) (caller : Principal) (now : Nat)
    (ticketId : Nat) (participantId : Principal) : Except Error Transaction × State :=
  match s.users.get caller with
  | none => (.error (.Unauthorized "Create an account first"), s)
  | some sender =>
    match s.users.get participantId with
    | none =>
      (.error (.NotFound ("User with id " ++ toString participantId ++ " not found")), s)
    | some receiver =>
      if sender.role ≠ "participant" then
        (.error (.Forbidden "Only participants can transfer tickets"), s)
      else if receiver.role ≠ "participant" then
        (.error (.Forbidden "Only participants can receive tickets"), s)
      else if caller = participantId then
        (.error (.BadRequest "You cannot transfer to yourself"), s)
      else match s.tickets.get ticketId with
        | none =>
          (.error (.NotFound ("Ticket with id " ++ toString ticketId ++ " not found")), s)
        | some t =>
          if t.participantId ≠ some caller then
            (.error (.Forbidden "Only ticket owner can transfer it"), s)
          else
            let newTransaction : Transaction :=
              { id := s.nextId, mode := "transfer", pay := 0, ticketId := t.id,
                senderId := some caller, participantId := participantId,
                organizerId := t.organizerId, createdAt := now, updatedAt := now }
            (.ok newTransaction,
              { s with
                tickets := s.tickets.insert t.id
                  { t with participantId := some participantId, updatedAt := now },
                transactions := s.transactions.insert newTransaction.id newTransaction,
                nextId := s.nextId + 1 })

/-- `getMyTickets` of `src/index.ts` (query): organizers see the tickets
they issued, any other registered role sees the tickets it holds. -/
def getMyTickets (s : State) (caller : Principal) : Except Error (List Ticket) :=
  match s.users.get caller with
  | none => .error (.Unauthorized "Create an account first")
  | some u =>
    .ok (s.tickets.values.filter (fun t =>
      if u.role = "organizer" then t.organizerId == caller
      else t.participantId == some caller))

/-- `getMyTransactions` of `src/index.ts` (query). -/
def getMyTransactions (s : State) (caller : Principal) : Except Error (List Transaction) :=
  match s.users.get caller with
  | none => .error (.Unauthorized "Create an account first")
  | some u =>
    .ok (s.transactions.values.filter (fun tx =>
      if u.role = "organizer" then tx.organizerId == caller
      else tx.participantId == caller || tx.senderId == some caller))

end V1

/-! ## Variant 2: the helper-based duplicate of the canister module -/

/-- `USER_ROLES` of the second variant. -/
def USER_ROLES : List String := ["organizer", "participant"]

/-- `TICKET_ROLES` of the second variant. -/
def TICKET_ROLES : List String := ["vvip", "vip", "regular"]

/-- `isStringEmpty`: `!str.trim().length`.  Trimming leading and
trailing whitespace leaves the empty string exactly when every character
is whitespace, which is the form used here. -/
def isStringEmpty (str : String) : Bool := str.toList.all Char.isWhitespace

/-- `isUserOrganizer`: `userStorage.get(id).Some.role === 'organizer'`
(for a missing user the left side is `undefined`, so the comparison is
`false`). -/
def isUserOrganizer (s : State) (id : Principal) : Bool :=
  match s.users.get id with
  | some u => u.role == "organizer"
  | none => false

namespace V2

/-- `createUser` of the second variant.  Its first guard builds
`Err({BadRequest: 'Name and role cannot be empty'})` when `name` or
`role` is blank but lacks a `return`, so the constructed error value is
discarded and execution falls through: the guard has no observable
effect and is therefore absent from the embedding. -/
def createUser (s : State) (caller : Principal) (now : Nat) (name role : String) :
    Except Error User × State :=
  if role ∉ USER_ROLES then
    (.error (.BadRequest "Please input a valid role (organizer or participant)"), s)
  else if s.users.containsKey caller then
    (.error (.BadRequest "You already have an account"), s)
  else
    let newUser : User :=
      { id := caller, name := name, role := role, createdAt := now, updatedAt := now }
    (.ok newUser, { s with users := s.users.insert newUser.id newUser })

/-- `createEvent` of the second variant.  `!payload.date` on a `nat64`
is `date = 0`; the date guard is `payload.date <= ic.time()`, so a date
equal to the current time is rejected. -/
def createEvent (s : State) (caller : Principal) (now : Nat)
    (name : String) (date : Nat) (location : String) : Except Error Event × State :=
  match s.users.get caller with
  | none => (.error (.Unauthorized "Create an account first"), s)
  | some u =>
    if u.role ≠ "organizer" then (.error (.Forbidden "Only organizers can create events"), s)
    else if isStringEmpty name || isStringEmpty location || date == 0 then
      (.error (.BadRequest "Name, date and location cannot be empty"), s)
    else if date ≤ now then (.error (.BadRequest "Date must be a date in the future"), s)
    else
      let newEvent : Event :=
        { id := s.nextId, name := name, date := date, location := location,
          organizerId := caller, createdAt := now, updatedAt := now }
      (.ok newEvent,
        { s with events := s.events.insert newEvent.id newEvent, nextId := s.nextId + 1 })

/-- `createTickets` of the second variant.  `!quantity` on a `nat32` is
`quantity = 0` and `!payload.price` on a `nat64` is `price = 0`.  The
source also rejects a blank `eventId` string in the same guard; under
the numeric identifier model every identifier is a non-blank string, so
that disjunct never fires on the embedded input space.  The subsequent
`quantity <= 0` and `price <= 0` re-checks of the source are unreachable
(both values are unsigned and already known non-zero) and reduce to the
dead guards mirrored here.  The `isEventExists` check and the following
`eventStorage.get(...).Some` access are fused into one `match`. -/
def createTickets (s : State) (caller : Principal) (now : Nat) (quantity : Nat)
    (role : String) (price : Nat) (eventId : Nat) : Except Error (List Ticket) × State :=
  match s.users.get caller with
  | none => (.error (.Unauthorized "Create an account first"), s)
  | some u =>
    if u.role ≠ "organizer" then (.error (.Forbidden "Only organizers can create tickets"), s)
    else if quantity == 0 || price == 0 || isStringEmpty role then
      (.error (.BadRequest "Quantity, role, price and event ID cannot be empty"), s)
    else if quantity == 0 then (.error (.BadRequest "Quantity must be greater than 0"), s)
    else if price == 0 then (.error (.BadRequest "Price must be greater than 0"), s)
    else if role ∉ TICKET_ROLES then
      (.error (.BadRequest "Please input a valid role (vvip, vip or regular)"), s)
    else match s.events.get eventId with
      | none => (.error (.NotFound ("Event with id " ++ toString eventId ++ " not found")), s)
      | some ev =>
        if caller ≠ ev.organizerId then
          (.error (.Forbidden "Only event owner can create tickets"), s)
        else if ev.date ≤ now then (.error (.BadRequest "Event already started"), s)
        else
          let ts := V1.ticketBatch caller now role price eventId s.nextId quantity
          (.ok ts,
            { s with tickets := V1.insertTickets s.tickets ts, nextId := s.nextId + quantity })

/-- `buyTicket` of the second variant.  The role guard rejects
organizers (`isUserOrganizer`); `!payload.pay` is `pay = 0`.  The blank
`ticketId` disjunct of the same guard never fires under the numeric
identifier model. -/
def buyTicket (s : State) (caller : Principal) (now : Nat) (pay ticketId : Nat) :
    Except Error Transaction × State :=
  match s.users.get caller with
  | none => (.error (.Unauthorized "Create an account first"), s)
  | some u =>
    if u.role = "organizer" then (.error (.Forbidden "Only participants can buy tickets"), s)
    else if pay == 0 then (.error (.BadRequest "Pay and ticket ID cannot be empty"), s)
    else match s.tickets.get ticketId with
      | none => (.error (.NotFound ("Ticket with id " ++ toString ticketId ++ " not found")), s)
      | some t =>
        if t.price ≠ pay then
          (.error (.BadRequest ("Please pay the exact ticket price: " ++ toString t.price)), s)
        else if t.participantId.isSome then
          (.error (.BadRequest "Ticket has already been sold"), s)
        else
          let newTransaction : Transaction :=
            { id := s.nextId, mode := "buy", pay := pay, ticketId := ticketId,
              senderId := none, participantId := caller, organizerId := t.organizerId,
              createdAt := now, updatedAt := now }
          (.ok newTransaction,
            { s with
              tickets := s.tickets.insert t.id
                { t with participantId := some caller, updatedAt := now },
              transactions := s.transactions.insert newTransaction.id newTransaction,
              nextId := s.nextId + 1 })

/-- `transferTicket` of the second variant.  The guard
`isStringEmpty(ticketId) || !participantId` never fires: identifiers are
non-blank under the numeric model and a `Principal` object is always
truthy.  For an unsold ticket the owner guard evaluates
`isProductOwner(caller, undefined)`, whose `.toText()` call throws; the
surrounding `catch` converts that into an `InternalError` result. -/
def transferTicket (s : State) (caller : Principal) (now : Nat)
    (ticketId : Nat) (participantId : Principal) : Except Error Transaction × State :=
  match s.users.get caller with
  | none => (.error (.Unauthorized "Create an account first"), s)
  | some sender =>
    match s.users.get participantId with
    | none =>
      (.error (.NotFound ("User with id " ++ toString participantId ++ " not found")), s)
    | some receiver =>
      if caller = participantId then
        (.error (.BadRequest "You cannot transfer to yourself"), s)
      else if sender.role = "organizer" || receiver.role = "organizer" then
        (.error (.Forbidden "Only participants can transfer tickets"), s)
      else match s.tickets.get ticketId with
        | none =>
          (.error (.NotFound ("Ticket with id " ++ toString ticketId ++ " not found")), s)
        | some t =>
          match t.participantId with
          | none =>
            (.error (.InternalError "TypeError: undefined has no method toText"), s)
          | some holder =>
            if caller ≠ holder then
              (.error (.Forbidden "Only ticket owner can transfer it"), s)
            else
              let newTransaction : Transaction :=
                { id := s.nextId, mode := "transfer", pay := 0, ticketId := t.id,
                  senderId := some caller, participantId := participantId,
                  organizerId := t.organizerId, createdAt := now, updatedAt := now }
              (.ok newTransaction,
                { s with
                  tickets := s.tickets.insert t.id
                    { t with participantId := some participantId, updatedAt := now },
                  transactions := s.transactions.insert newTransaction.id newTransaction,
                  nextId := s.nextId + 1 })

end V2

/-! ## The exposed operation set of the `src/index.ts` canister as a
transition system -/

/-- One invocation of an exposed operation of the `src/index.ts`
canister, together with the host-supplied caller identity and
timestamp. -/
inductive Op where
  | createUser (caller : Principal) (now : Nat) (name role : String)
  | createEvent (caller : Principal) (now : Nat) (name : String) (date : Nat) (location : String)
  | createTickets (caller : Principal) (now : Nat) (quantity : Nat) (role : String)
      (price : Nat) (eventId : Nat)
  | buyTicket (caller : Principal) (now : Nat) (pay ticketId : Nat)
  | transferTicket (caller : Principal) (now : Nat) (ticketId : Nat) (participantId : Principal)
  | getMe (caller : Principal)
  | getEvents
  | getTicketsByEvent (eventId : Nat)
  | getMyTickets (caller : Principal)
  | getMyTransactions (caller : Principal)

/-- The state after one invocation.  The five query operations perform
no writes (their embeddings return no state), so they leave the state
unchanged. -/
def applyOp (op : Op) (s : State) : State :=
  match op with
  | .createUser caller now name role => (V1.createUser s caller now name role).2
  | .createEvent caller now name date location => (V1.createEvent s caller now name date location).2
  | .createTickets caller now quantity role price eventId =>
      (V1.createTickets s caller now quantity role price eventId).2
  | .buyTicket caller now pay ticketId => (V1.buyTicket s caller now pay ticketId).2
  | .transferTicket caller now ticketId participantId =>
      (V1.transferTicket s caller now ticketId participantId).2
  | .getMe _ => s
  | .getEvents => s
  | .getTicketsByEvent _ => s
  | .getMyTickets _ => s
  | .getMyTransactions _ => s

/-- The state reached by a sequence of invocations from a fresh
canister. -/
def run (ops : List Op) : State := ops.foldl (fun s op => applyOp op s) initState

/-- Every ticket holder is a registered participant.  This holds in all
reachable states (a holder is installed only by `buyTicket`, which
requires a participant caller, or `transferTicket`, which requires a
participant receiver) and is the hypothesis under which the transfer
precondition of the design document is exact. -/
def holderOk (s : State) (t : Ticket) : Bool :=
  match t.participantId with
  | none => true
  | some p =>
    match s.users.get p with
    | some u => u.role == "participant"
    | none => false

/-- All tickets of the state satisfy `holderOk`. -/
def HoldersRegisteredParticipants (s : State) : Prop :=
  ∀ kv ∈ s.tickets.entries, holderOk s kv.2 = true

instance (s : State) : Decidable (HoldersRegisteredParticipants s) := by
  unfold HoldersRegisteredParticipants; infer_instance

/-! ## Concrete records and states used by witnesses and
counterexamples -/

/-- A registered organizer. -/
def orgUser : User := { id := 1, name := "Org", role := "organizer", createdAt := 0, updatedAt := 0 }

/-- A registered participant. -/
def userP : User := { id := 2, name := "P", role := "participant", createdAt := 0, updatedAt := 0 }

/-- A second registered participant. -/
def userQ : User := { id := 3, name := "Q", role := "participant", createdAt := 0, updatedAt := 0 }

/-- An event owned by the organizer, dated in the future. -/
def sampleEvent : Event :=
  { id := 0, name := "Gig", date := 100, location := "Hall", organizerId := 1,
    createdAt := 0, updatedAt := 0 }

/-- An unsold ticket for the sample event. -/
def unsoldTicket : Ticket :=
  { id := 10, role := "regular", price := 50, eventId := 0, participantId := none,
    organizerId := 1, createdAt := 0, updatedAt := 0 }

/-- A ticket currently held by participant 2. -/
def soldTicket : Ticket :=
  { id := 11, role := "vip", price := 60, eventId := 0, participantId := some 2,
    organizerId := 1, createdAt := 0, updatedAt := 0 }

/-- A populated state: one organizer, two participants, one future
event, one unsold and one sold ticket. -/
def sampleState : State :=
  { users := ⟨[(1, orgUser), (2, userP), (3, userQ)]⟩,
    events := ⟨[(0, sampleEvent)]⟩,
    tickets := ⟨[(10, unsoldTicket), (11, soldTicket)]⟩,
    transactions := ⟨[]⟩,
    nextId := 12 }

/-- An operation sequence from the fresh canister: register an
organizer, create an event, issue one ticket, register a participant,
and have the participant buy the ticket (identifier 1). -/
def demoOps : List Op :=
  [.createUser 1 0 "O" "organizer",
   .createEvent 1 0 "E" 100 "L",
   .createTickets 1 0 1 "regular" 5 0,
   .createUser 2 0 "P" "participant",
   .buyTicket 2 0 5 1]

/-- The ticket produced and sold along `demoOps`. -/
def demoSoldTicket : Ticket :=
  { id := 1, role := "regular", price := 5, eventId := 0, participantId := some 2,
    organizerId := 1, createdAt := 0, updatedAt := 0 }

/-! ## Store lemmas -/

theorem lookupKey_insertKey_self (l : List (Nat × α)) (k : Nat) (v : α) :
    lookupKey (insertKey l k v) k = some v := by
  induction l with
  | nil => simp [insertKey, lookupKey]
  | cons kv rest ih =>
    by_cases h : kv.1 = k
    · simp [insertKey, h, lookupKey]
    · simp [insertKey, h, lookupKey, ih]

theorem lookupKey_insertKey_ne (l : List (Nat × α)) (k k' : Nat) (v : α) (h : k' ≠ k) :
    lookupKey (insertKey l k v) k' = lookupKey l k' := by
  have hkk : ¬ k = k' := fun hc => h hc.symm
  induction l with
  | nil =>
    simp only [insertKey, lookupKey]
    rw [if_neg hkk]
  | cons kv rest ih =>
    by_cases hk : kv.1 = k
    · have h2 : ¬ kv.1 = k' := by rw [hk]; exact hkk
      simp only [insertKey, if_pos hk, lookupKey, if_neg hkk, if_neg h2]
    · simp only [insertKey, if_neg hk, lookupKey]
      by_cases hk' : kv.1 = k' <;> simp [hk', ih]

theorem mem_insertKey (l : List (Nat × α)) (k : Nat) (v : α) (kv' : Nat × α)
    (h : kv' ∈ insertKey l k v) : kv' = (k, v) ∨ kv' ∈ l := by
  induction l with
  | nil => simpa [insertKey] using h
  | cons kv rest ih =>
    by_cases hk : kv.1 = k
    · simp only [insertKey, if_pos hk, List.mem_cons] at h
      rcases h with h | h
      · exact Or.inl h
      · exact Or.inr (List.mem_cons_of_mem _ h)
    · simp only [insertKey, if_neg hk, List.mem_cons] at h
      rcases h with h | h
      · exact Or.inr (by simp [h])
      · rcases ih h with h' | h'
        · exact Or.inl h'
        · exact Or.inr (List.mem_cons_of_mem _ h')

theorem lookupKey_eq_some_mem (l : List (Nat × α)) (k : Nat) (v : α)
    (h : lookupKey l k = some v) : (k, v) ∈ l := by
  induction l with
  | nil => simp [lookupKey] at h
  | cons kv rest ih =>
    by_cases hk : kv.1 = k
    · simp only [lookupKey, if_pos hk, Option.some.injEq] at h
      have : kv = (k, v) := by
        cases kv; simp_all
      simp [this]
    · simp only [lookupKey, if_neg hk] at h
      exact List.mem_cons_of_mem _ (ih h)

theorem length_insertKey_of_lookup_none (l : List (Nat × α)) (k : Nat) (v : α)
    (h : lookupKey l k = none) : (insertKey l k v).length = l.length + 1 := by
  induction l with
  | nil => simp [insertKey]
  | cons kv rest ih =>
    by_cases hk : kv.1 = k
    · simp [lookupKey, if_pos hk] at h
    · simp only [lookupKey, if_neg hk] at h
      simp [insertKey, if_neg hk, ih h]

theorem Store.get_insert_self (st : Store α) (k : Nat) (v : α) :
    (st.insert k v).get k = some v :=
  lookupKey_insertKey_self st.entries k v

theorem Store.get_insert_ne (st : Store α) (k k' : Nat) (v : α) (h : k' ≠ k) :
    (st.insert k v).get k' = st.get k' :=
  lookupKey_insertKey_ne st.entries k k' v h

theorem Store.mem_insert_entries (st : Store α) (k : Nat) (v : α) (kv' : Nat × α)
    (h : kv' ∈ (st.insert k v).entries) : kv' = (k, v) ∨ kv' ∈ st.entries :=
  mem_insertKey st.entries k v kv' h

theorem Store.get_eq_some_mem (st : Store α) (k : Nat) (v : α)
    (h : st.get k = some v) : (k, v) ∈ st.entries :=
  lookupKey_eq_some_mem st.entries k v h

theorem Store.size_insert_of_get_none (st : Store α) (k : Nat) (v : α)
    (h : st.get k = none) : (st.insert k v).size = st.size + 1 :=
  length_insertKey_of_lookup_none st.entries k v h

/-! ## Batch-insert lemmas -/

theorem get_insertTickets_not_mem (st : Store Ticket) (ts : List Ticket) (k : Nat)
    (h : ∀ t ∈ ts, t.id ≠ k) : (V1.insertTickets st ts).get k = st.get k := by
  induction ts generalizing st with
  | nil => rfl
  | cons t rest ih =>
    show (V1.insertTickets (st.insert t.id t) rest).get k = st.get k
    rw [ih (st.insert t.id t) (fun t' ht' => h t' (List.mem_cons_of_mem _ ht'))]
    exact Store.get_insert_ne st t.id k t (fun hc => h t (List.mem_cons_self _ _) hc.symm)

theorem mem_insertTickets (st : Store Ticket) (ts : List Ticket) (kv : Nat × Ticket)
    (h : kv ∈ (V1.insertTickets st ts).entries) :
    kv ∈ st.entries ∨ (kv.2 ∈ ts ∧ kv.1 = kv.2.id) := by
  induction ts generalizing st with
  | nil => exact Or.inl h
  | cons t rest ih =>
    rcases ih (st.insert t.id t) h with h' | h'
    · rcases Store.mem_insert_entries st t.id t kv h' with h2 | h2
      · right
        subst h2
        exact ⟨List.mem_cons_self _ _, rfl⟩
      · exact Or.inl h2
    · exact Or.inr ⟨List.mem_cons_of_mem _ h'.1, h'.2⟩

theorem size_insertTickets (st : Store Ticket) (ts : List Ticket)
    (hnd : (ts.map Ticket.id).Nodup) (hfresh : ∀ t ∈ ts, st.get t.id = none) :
    (V1.insertTickets st ts).size = st.size + ts.length := by
  induction ts generalizing st with
  | nil => rfl
  | cons t rest ih =>
    have hndr : (rest.map Ticket.id).Nodup := (List.nodup_cons.mp hnd).2
    have hne : ∀ t' ∈ rest, t'.id ≠ t.id := by
      intro t' ht' hc
      exact (List.nodup_cons.mp hnd).1 (hc ▸ List.mem_map_of_mem Ticket.id ht')
    have hfresh' : ∀ t' ∈ rest, (st.insert t.id t).get t'.id = none := by
      intro t' ht'
      rw [Store.get_insert_ne st t.id t'.id t (hne t' ht')]
      exact hfresh t' (List.mem_cons_of_mem _ ht')
    show (V1.insertTickets (st.insert t.id t) rest).size = st.size + (rest.length + 1)
    rw [ih (st.insert t.id t) hndr hfresh',
      Store.size_insert_of_get_none st t.id t (hfresh t (List.mem_cons_self _ _))]
    omega

theorem get_insertTickets_mem (st : Store Ticket) (ts : List Ticket)
    (hnd : (ts.map Ticket.id).Nodup) (t : Ticket) (ht : t ∈ ts) :
    (V1.insertTickets st ts).get t.id = some t := by
  induction ts generalizing st with
  | nil => cases ht
  | cons t' rest ih =>
    rcases List.mem_cons.mp ht with h | h
    · subst h
      show (V1.insertTickets (st.insert t.id t) rest).get t.id = some t
      have hne : ∀ t'' ∈ rest, t''.id ≠ t.id := by
        intro t'' ht'' hc
        exact (List.nodup_cons.mp hnd).1 (hc ▸ List.mem_map_of_mem Ticket.id ht'')
      rw [get_insertTickets_not_mem (st.insert t.id t) rest t.id hne]
      exact Store.get_insert_self st t.id t
    · exact ih (st.insert t'.id t') (List.nodup_cons.mp hnd).2 h

/-! ## Ticket-batch lemmas -/

theorem length_ticketBatch (caller : Principal) (now : Nat) (role : String) (price : Nat)
    (eventId base quantity : Nat) :
    (V1.ticketBatch caller now role price eventId base quantity).length = quantity := by
  simp [V1.ticketBatch]

theorem mem_ticketBatch (caller : Principal) (now : Nat) (role : String) (price : Nat)
    (eventId base quantity : Nat) (t : Ticket)
    (h : t ∈ V1.ticketBatch caller now role price eventId base quantity) :
    t.role = role ∧ t.price = price ∧ t.eventId = eventId ∧ t.participantId = none ∧
      t.organizerId = caller ∧ base ≤ t.id ∧ t.id < base + quantity := by
  simp only [V1.ticketBatch, List.mem_map, List.mem_range] at h
  obtain ⟨i, hi, rfl⟩ := h
  refine ⟨rfl, rfl, rfl, rfl, rfl, ?_, ?_⟩ <;>
    · simp only [V1.newTicket]
      omega

theorem nodup_ticketBatch_ids (caller : Principal) (now : Nat) (role : String) (price : Nat)
    (eventId base quantity : Nat) :
    ((V1.ticketBatch caller now role price eventId base quantity).map Ticket.id).Nodup := by
  unfold V1.ticketBatch
  rw [List.map_map]
  have : (Ticket.id ∘ fun i => V1.newTicket caller now role price eventId (base + i)) =
      fun i => base + i := by
    funext i
    rfl
  rw [this]
  exact (List.nodup_range quantity).map (fun a b h => by omega)

/-! ## Well-formedness lemmas -/

theorem WF.tickets_get_id {s : State} (hwf : s.WF) {k : Nat} {t : Ticket}
    (h : s.tickets.get k = some t) : t.id = k :=
  (hwf.2.2.1 (k, t) (Store.get_eq_some_mem s.tickets k t h)).1

theorem WF.tickets_get_lt {s : State} (hwf : s.WF) {k : Nat} {t : Ticket}
    (h : s.tickets.get k = some t) : k < s.nextId :=
  (hwf.2.2.1 (k, t) (Store.get_eq_some_mem s.tickets k t h)).2

theorem WF.tickets_get_none_of_ge {s : State} (hwf : s.WF) {k : Nat}
    (h : s.nextId ≤ k) : s.tickets.get k = none := by
  cases hc : s.tickets.get k with
  | none => rfl
  | some t =>
    have := WF.tickets_get_lt hwf hc
    omega

theorem WF.transactions_get_none_nextId {s : State} (hwf : s.WF) :
    s.transactions.get s.nextId = none := by
  cases hc : s.transactions.get s.nextId with
  | none => rfl
  | some tx =>
    have := (hwf.2.2.2 (s.nextId, tx)
      (Store.get_eq_some_mem s.transactions s.nextId tx hc)).2
    omega

/-! ## Errors never write: per-operation frame lemmas -/

theorem V1.createUser_error_frame (s : State) (caller : Principal) (now : Nat)
    (name role : String) :
    ∀ e, (V1.createUser s caller now name role).1 = .error e →
      (V1.createUser s caller now name role).2 = s := by
  unfold V1.createUser
  split
  · simp
  · split <;> simp

theorem V1.createEvent_error_frame (s : State) (caller : Principal) (now : Nat)
    (name : String) (date : Nat) (location : String) :
    ∀ e, (V1.createEvent s caller now name date location).1 = .error e →
      (V1.createEvent s caller now name date location).2 = s := by
  unfold V1.createEvent
  split
  · simp
  · split
    · simp
    · split <;> simp

theorem V1.createTickets_error_frame (s : State) (caller : Principal) (now quantity : Nat)
    (role : String) (price eventId : Nat) :
    ∀ e, (V1.createTickets s caller now quantity role price eventId).1 = .error e →
      (V1.createTickets s caller now quantity role price eventId).2 = s := by
  unfold V1.createTickets
  split
  · simp
  · split
    · simp
    · split
      · simp
      · split
        · simp
        · split
          · simp
          · split <;> simp

theorem V1.buyTicket_error_frame (s : State) (caller : Principal) (now pay ticketId : Nat) :
    ∀ e, (V1.buyTicket s caller now pay ticketId).1 = .error e →
      (V1.buyTicket s caller now pay ticketId).2 = s := by
  unfold V1.buyTicket
  split
  · simp
  · split
    · simp
    · split
      · simp
      · split
        · simp
        · split <;> simp

theorem V1.transferTicket_error_frame (s : State) (caller : Principal) (now ticketId : Nat)
    (participantId : Principal) :
    ∀ e, (V1.transferTicket s caller now ticketId participantId).1 = .error e →
      (V1.transferTicket s caller now ticketId participantId).2 = s := by
  unfold V1.transferTicket
  split
  · simp
  · split
    · simp
    · split
      · simp
      · split
        · simp
        · split
          · simp
          · split
            · simp
            · split <;> simp

theorem V2.createUser_error_frame_v2 (s : State) (caller : Principal) (now : Nat)
    (name role : String) :
    ∀ e, (V2.createUser s caller now name role).1 = .error e →
      (V2.createUser s caller now name role).2 = s := by
  unfold V2.createUser
  split
  · simp
  · split <;> simp

theorem V2.createEvent_error_frame_v2 (s : State) (caller : Principal) (now : Nat)
    (name : String) (date : Nat) (location : String) :
    ∀ e, (V2.createEvent s caller now name date location).1 = .error e →
      (V2.createEvent s caller now name date location).2 = s := by
  unfold V2.createEvent
  split
  · simp
  · split
    · simp
    · split
      · simp
      · split <;> simp

theorem V2.createTickets_error_frame_v2 (s : State) (caller : Principal) (now quantity : Nat)
    (role : String) (price eventId : Nat) :
    ∀ e, (V2.createTickets s caller now quantity role price eventId).1 = .error e →
      (V2.createTickets s caller now quantity role price eventId).2 = s := by
  unfold V2.createTickets
  split
  · simp
  · split
    · simp
    · split
      · simp
      · split
        · simp
        · split
          · simp
          · split
            · simp
            · split
              · simp
              · split
                · simp
                · split <;> simp

theorem V2.buyTicket_error_frame_v2 (s : State) (caller : Principal) (now pay ticketId : Nat) :
    ∀ e, (V2.buyTicket s caller now pay ticketId).1 = .error e →
      (V2.buyTicket s caller now pay ticketId).2 = s := by
  unfold V2.buyTicket
  split
  · simp
  · split
    · simp
    · split
      · simp
      · split
        · simp
        · split
          · simp
          · split <;> simp

theorem V2.transferTicket_error_frame_v2 (s : State) (caller : Principal) (now ticketId : Nat)
    (participantId : Principal) :
    ∀ e, (V2.transferTicket s caller now ticketId participantId).1 = .error e →
      (V2.transferTicket s caller now ticketId participantId).2 = s := by
  unfold V2.transferTicket
  split
  · simp
  · split
    · simp
    · split
      · simp
      · split
        · simp
        · split
          · simp
          · split
            · simp
            · split <;> simp

/-! ## Well-formedness is preserved by every operation -/

theorem V1.createUser_wf (s : State) (caller : Principal) (now : Nat) (name role : String)
    (hwf : s.WF) : (V1.createUser s caller now name role).2.WF := by
  unfold V1.createUser
  split
  · exact hwf
  · split
    · exact hwf
    · simp only [State.WF]
      obtain ⟨hu, he, ht, htx⟩ := hwf
      refine ⟨?_, he, ht, htx⟩
      intro kv hkv
      rcases Store.mem_insert_entries s.users caller _ kv hkv with h | h
      · subst h; rfl
      · exact hu kv h

theorem V1.createEvent_wf (s : State) (caller : Principal) (now : Nat)
    (name : String) (date : Nat) (location : String)
    (hwf : s.WF) : (V1.createEvent s caller now name date location).2.WF := by
  unfold V1.createEvent
  split
  · exact hwf
  · split
    · exact hwf
    · split
      · exact hwf
      · simp only [State.WF]
        obtain ⟨hu, he, ht, htx⟩ := hwf
        refine ⟨hu, ?_, ?_, ?_⟩
        · intro kv hkv
          rcases Store.mem_insert_entries s.events s.nextId _ kv hkv with h | h
          · subst h; exact ⟨rfl, by omega⟩
          · obtain ⟨h1, h2⟩ := he kv h
            exact ⟨h1, by omega⟩
        · intro kv hkv
          obtain ⟨h1, h2⟩ := ht kv hkv
          exact ⟨h1, by omega⟩
        · intro kv hkv
          obtain ⟨h1, h2⟩ := htx kv hkv
          exact ⟨h1, by omega⟩

theorem V1.createTickets_wf (s : State) (caller : Principal) (now quantity : Nat)
    (role : String) (price eventId : Nat)
    (hwf : s.WF) : (V1.createTickets s caller now quantity role price eventId).2.WF := by
  unfold V1.createTickets
  split
  · exact hwf
  · split
    · exact hwf
    · split
      · exact hwf
      · split
        · exact hwf
        · split
          · exact hwf
          · split
            · exact hwf
            · simp only [State.WF]
              obtain ⟨hu, he, ht, htx⟩ := hwf
              refine ⟨hu, ?_, ?_, ?_⟩
              · intro kv hkv
                obtain ⟨h1, h2⟩ := he kv hkv
                exact ⟨h1, by omega⟩
              · intro kv hkv
                rcases mem_insertTickets s.tickets _ kv hkv with h | h
                · obtain ⟨h1, h2⟩ := ht kv h
                  exact ⟨h1, by omega⟩
                · obtain ⟨hmem, hid⟩ := h
                  obtain ⟨_, _, _, _, _, hlo, hhi⟩ :=
                    mem_ticketBatch caller now role price eventId s.nextId quantity kv.2 hmem
                  exact ⟨hid.symm, by omega⟩
              · intro kv hkv
                obtain ⟨h1, h2⟩ := htx kv hkv
                exact ⟨h1, by omega⟩

theorem V1.buyTicket_wf (s : State) (caller : Principal) (now pay ticketId : Nat)
    (hwf : s.WF) : (V1.buyTicket s caller now pay ticketId).2.WF := by
  unfold V1.buyTicket
  split
  · exact hwf
  · split
    · exact hwf
    · split
      · exact hwf
      · next u _ t heq =>
        split
        · exact hwf
        · split
          · exact hwf
          · simp only [State.WF]
            have hid : t.id = ticketId := WF.tickets_get_id hwf heq
            have hlt : ticketId < s.nextId := WF.tickets_get_lt hwf heq
            obtain ⟨hu, he, ht, htx⟩ := hwf
            refine ⟨hu, ?_, ?_, ?_⟩
            · intro kv hkv
              obtain ⟨h1, h2⟩ := he kv hkv
              exact ⟨h1, by omega⟩
            · intro kv hkv
              rcases Store.mem_insert_entries s.tickets t.id _ kv hkv with h | h
              · subst h
                exact ⟨rfl, by omega⟩
              · obtain ⟨h1, h2⟩ := ht kv h
                exact ⟨h1, by omega⟩
            · intro kv hkv
              rcases Store.mem_insert_entries s.transactions s.nextId _ kv hkv with h | h
              · subst h; exact ⟨rfl, by omega⟩
              · obtain ⟨h1, h2⟩ := htx kv h
                exact ⟨h1, by omega⟩

theorem V1.transferTicket_wf (s : State) (caller : Principal) (now ticketId : Nat)
    (participantId : Principal)
    (hwf : s.WF) : (V1.transferTicket s caller now ticketId participantId).2.WF := by
  unfold V1.transferTicket
  split
  · exact hwf
  · split
    · exact hwf
    · split
      · exact hwf
      · split
        · exact hwf
        · split
          · exact hwf
          · split
            · exact hwf
            · next t heq =>
              split
              · exact hwf
              · simp only [State.WF]
                have hid : t.id = ticketId := WF.tickets_get_id hwf heq
                have hlt : ticketId < s.nextId := WF.tickets_get_lt hwf heq
                obtain ⟨hu, he, ht, htx⟩ := hwf
                refine ⟨hu, ?_, ?_, ?_⟩
                · intro kv hkv
                  obtain ⟨h1, h2⟩ := he kv hkv
                  exact ⟨h1, by omega⟩
                · intro kv hkv
                  rcases Store.mem_insert_entries s.tickets t.id _ kv hkv with h | h
                  · subst h
                    exact ⟨rfl, by omega⟩
                  · obtain ⟨h1, h2⟩ := ht kv h
                    exact ⟨h1, by omega⟩
                · intro kv hkv
                  rcases Store.mem_insert_entries s.transactions s.nextId _ kv hkv with h | h
                  · subst h; exact ⟨rfl, by omega⟩
                  · obtain ⟨h1, h2⟩ := htx kv h
                    exact ⟨h1, by omega⟩

theorem applyOp_wf (op : Op) (s : State) (hwf : s.WF) : (applyOp op s).WF := by
  cases op with
  | createUser caller now name role => exact V1.createUser_wf s caller now name role hwf
  | createEvent caller now name date location =>
      exact V1.createEvent_wf s caller now name date location hwf
  | createTickets caller now quantity role price eventId =>
      exact V1.createTickets_wf s caller now quantity role price eventId hwf
  | buyTicket caller now pay ticketId => exact V1.buyTicket_wf s caller now pay ticketId hwf
  | transferTicket caller now ticketId participantId =>
      exact V1.transferTicket_wf s caller now ticketId participantId hwf
  | getMe _ => exact hwf
  | getEvents => exact hwf
  | getTicketsByEvent _ => exact hwf
  | getMyTickets _ => exact hwf
  | getMyTransactions _ => exact hwf

theorem initState_wf : initState.WF := by
  refine ⟨?_, ?_, ?_, ?_⟩ <;> · intro kv hkv; cases hkv

theorem run_wf (ops : List Op) : (run ops).WF := by
  unfold run
  have step : ∀ s : State, s.WF → (ops.foldl (fun s op => applyOp op s) s).WF := by
    induction ops with
    | nil => intro s h; exact h
    | cons op rest ih =>
      intro s h
      exact ih (applyOp op s) (applyOp_wf op s h)
  exact step initState initState_wf

/-! ## The ownership field is never cleared -/

theorem buyTicket_ok_unsold (s : State) (caller : Principal) (now pay ticketId : Nat)
    (tx : Transaction) (h : (V1.buyTicket s caller now pay ticketId).1 = .ok tx) :
    ∃ t, s.tickets.get ticketId = some t ∧ t.participantId = none := by
  unfold V1.buyTicket at h
  split at h
  · simp at h
  · split at h
    · simp at h
    · split at h
      · simp at h
      · next t heq =>
        split at h
        · simp at h
        · split at h
          · simp at h
          · next hsold =>
            refine ⟨t, heq, ?_⟩
            cases hp : t.participantId with
            | none => rfl
            | some p => rw [hp] at hsold; simp at hsold

theorem sold_stays_sold (op : Op) (s : State) (tid : Nat) (t : Ticket)
    (hwf : s.WF) (hget : s.tickets.get tid = some t) (hsome : t.participantId.isSome = true) :
    ∃ t', (applyOp op s).tickets.get tid = some t' ∧ t'.participantId.isSome = true := by
  cases op with
  | getMe _ => exact ⟨t, hget, hsome⟩
  | getEvents => exact ⟨t, hget, hsome⟩
  | getTicketsByEvent _ => exact ⟨t, hget, hsome⟩
  | getMyTickets _ => exact ⟨t, hget, hsome⟩
  | getMyTransactions _ => exact ⟨t, hget, hsome⟩
  | createUser caller now name role =>
    show ∃ t', (V1.createUser s caller now name role).2.tickets.get tid = some t' ∧ _
    unfold V1.createUser
    split
    · exact ⟨t, hget, hsome⟩
    · split
      · exact ⟨t, hget, hsome⟩
      · exact ⟨t, hget, hsome⟩
  | createEvent caller now name date location =>
    show ∃ t', (V1.createEvent s caller now name date location).2.tickets.get tid = some t' ∧ _
    unfold V1.createEvent
    split
    · exact ⟨t, hget, hsome⟩
    · split
      · exact ⟨t, hget, hsome⟩
      · split
        · exact ⟨t, hget, hsome⟩
        · exact ⟨t, hget, hsome⟩
  | createTickets caller now quantity role price eventId =>
    show ∃ t',
      (V1.createTickets s caller now quantity role price eventId).2.tickets.get tid = some t' ∧ _
    have htid : tid < s.nextId := WF.tickets_get_lt hwf hget
    unfold V1.createTickets
    split
    · exact ⟨t, hget, hsome⟩
    · split
      · exact ⟨t, hget, hsome⟩
      · split
        · exact ⟨t, hget, hsome⟩
        · split
          · exact ⟨t, hget, hsome⟩
          · split
            · exact ⟨t, hget, hsome⟩
            · split
              · exact ⟨t, hget, hsome⟩
              · refine ⟨t, ?_, hsome⟩
                show (V1.insertTickets s.tickets
                  (V1.ticketBatch caller now role price eventId s.nextId quantity)).get tid = some t
                rw [get_insertTickets_not_mem]
                · exact hget
                · intro t' ht' hc
                  obtain ⟨_, _, _, _, _, hlo, _⟩ :=
                    mem_ticketBatch caller now role price eventId s.nextId quantity t' ht'
                  omega
  | buyTicket caller now pay ticketId =>
    show ∃ t', (V1.buyTicket s caller now pay ticketId).2.tickets.get tid = some t' ∧ _
    unfold V1.buyTicket
    split
    · exact ⟨t, hget, hsome⟩
    · split
      · exact ⟨t, hget, hsome⟩
      · split
        · exact ⟨t, hget, hsome⟩
        · next t0 heq =>
          split
          · exact ⟨t, hget, hsome⟩
          · split
            · exact ⟨t, hget, hsome⟩
            · next hsold =>
              refine ⟨t, ?_, hsome⟩
              show (s.tickets.insert t0.id
                { t0 with participantId := some caller, updatedAt := now }).get tid = some t
              rw [Store.get_insert_ne]
              · exact hget
              · have hid : t0.id = ticketId := WF.tickets_get_id hwf heq
                intro hc
                rw [hc, hid] at hget
                rw [heq] at hget
                obtain rfl : t0 = t := by injection hget
                rw [hsome] at hsold
                exact hsold rfl
  | transferTicket caller now ticketId participantId =>
    show ∃ t',
      (V1.transferTicket s caller now ticketId participantId).2.tickets.get tid = some t' ∧ _
    unfold V1.transferTicket
    split
    · exact ⟨t, hget, hsome⟩
    · split
      · exact ⟨t, hget, hsome⟩
      · split
        · exact ⟨t, hget, hsome⟩
        · split
          · exact ⟨t, hget, hsome⟩
          · split
            · exact ⟨t, hget, hsome⟩
            · split
              · exact ⟨t, hget, hsome⟩
              · next t0 heq =>
                split
                · exact ⟨t, hget, hsome⟩
                · by_cases hc : tid = t0.id
                  · refine ⟨{ t0 with participantId := some participantId, updatedAt := now },
                      ?_, rfl⟩
                    show (s.tickets.insert t0.id
                      { t0 with participantId := some participantId, updatedAt := now }).get tid =
                        some { t0 with participantId := some participantId, updatedAt := now }
                    rw [hc]
                    exact Store.get_insert_self s.tickets t0.id _
                  · refine ⟨t, ?_, hsome⟩
                    show (s.tickets.insert t0.id
                      { t0 with participantId := some participantId, updatedAt := now }).get tid =
                        some t
                    rw [Store.get_insert_ne]
                    · exact hget
                    · exact hc

/-- Claim C1: in any state reachable by a sequence of exposed operations,
a ticket whose `participantId` is some identity keeps some identity (never
cleared back to empty) across any further exposed operation; and
`buyTicket` returns success only when the targeted ticket exists with an
empty `participantId`. -/
theorem c1_participantId_never_cleared (ops : List Op) (op : Op) (tid : Nat) (t : Ticket)
    (hget : (run ops).tickets.get tid = some t)
    (hsome : t.participantId.isSome = true) :
    (∃ t', (applyOp op (run ops)).tickets.get tid = some t' ∧
      t'.participantId.isSome = true) ∧
    (∀ (s : State) (caller : Principal) (now pay tid' : Nat) (tx : Transaction),
      (V1.buyTicket s caller now pay tid').1 = .ok tx →
      ∃ t'', s.tickets.get tid' = some t'' ∧ t''.participantId = none) :=
  ⟨sold_stays_sold op (run ops) tid t (run_wf ops) hget hsome,
   fun s caller now pay tid' tx h => buyTicket_ok_unsold s caller now pay tid' tx h⟩

/-- Witness for C1: along `demoOps` ticket 1 is sold to participant 2,
and it stays held across a further operation. -/
theorem c1_witness :
    (∃ t', (applyOp Op.getEvents (run demoOps)).tickets.get 1 = some t' ∧
      t'.participantId.isSome = true) ∧
    (∀ (s : State) (caller : Principal) (now pay tid' : Nat) (tx : Transaction),
      (V1.buyTicket s caller now pay tid').1 = .ok tx →
      ∃ t'', s.tickets.get tid' = some t'' ∧ t''.participantId = none) :=
  c1_participantId_never_cleared demoOps Op.getEvents 1 demoSoldTicket rfl rfl

/-! ## Full specification of buyTicket -/

/-- Claim C2: `buyTicket(ticketId, pay)` succeeds exactly when the caller
is a registered user with role participant, the ticket exists, `pay`
equals its `price`, and its `participantId` is empty; on success it sets
`participantId` to the caller, refreshes `updatedAt`, and appends one buy
transaction with empty `senderId`, `participantId` the caller and `pay`
the paid amount.  The failure variants follow the guard order of the
source: `Unauthorized` (unregistered), `Forbidden` (wrong role),
`NotFound` (missing ticket), `BadRequest` (wrong pay — InvalidInput in
the design taxonomy), `BadRequest` (already sold — Conflict in the design
taxonomy). -/
theorem c2_buyTicket_spec (s : State) (caller : Principal) (now pay tid : Nat)
    (hwf : s.WF) :
    ((∃ tx, (V1.buyTicket s caller now pay tid).1 = .ok tx) ↔
      ((∃ u, s.users.get caller = some u ∧ u.role = "participant") ∧
        (∃ t, s.tickets.get tid = some t ∧ t.price = pay ∧ t.participantId = none))) ∧
    (∀ tx, (V1.buyTicket s caller now pay tid).1 = .ok tx →
      tx.mode = "buy" ∧ tx.senderId = none ∧ tx.participantId = caller ∧ tx.pay = pay ∧
      (∃ t, s.tickets.get tid = some t ∧
        (V1.buyTicket s caller now pay tid).2.tickets.get tid =
          some { t with participantId := some caller, updatedAt := now }) ∧
      (V1.buyTicket s caller now pay tid).2.transactions.size = s.transactions.size + 1) ∧
    (s.users.get caller = none →
      ∃ m, (V1.buyTicket s caller now pay tid).1 = .error (.Unauthorized m)) ∧
    (∀ u, s.users.get caller = some u → u.role ≠ "participant" →
      ∃ m, (V1.buyTicket s caller now pay tid).1 = .error (.Forbidden m)) ∧
    (∀ u, s.users.get caller = some u → u.role = "participant" → s.tickets.get tid = none →
      ∃ m, (V1.buyTicket s caller now pay tid).1 = .error (.NotFound m)) ∧
    (∀ u t, s.users.get caller = some u → u.role = "participant" →
      s.tickets.get tid = some t → t.price ≠ pay →
      ∃ m, (V1.buyTicket s caller now pay tid).1 = .error (.BadRequest m)) ∧
    (∀ u t, s.users.get caller = some u → u.role = "participant" →
      s.tickets.get tid = some t → t.price = pay → t.participantId ≠ none →
      ∃ m, (V1.buyTicket s caller now pay tid).1 = .error (.BadRequest m)) := by
  rcases hu : s.users.get caller with _ | u
  · have hres : V1.buyTicket s caller now pay tid =
        (.error (.Unauthorized "Create an account first"), s) := by
      unfold V1.buyTicket
      rw [hu]
    refine ⟨⟨?_, ?_⟩, ?_, ?_, ?_, ?_, ?_, ?_⟩
    · rintro ⟨tx, htx⟩
      rw [hres] at htx
      cases htx
    · rintro ⟨⟨u, hu2, -⟩, -⟩
      cases hu2
    · intro tx htx
      rw [hres] at htx
      cases htx
    · intro _
      rw [hres]
      exact ⟨_, rfl⟩
    · intro u hu2 _
      cases hu2
    · intro u hu2 _ _
      cases hu2
    · intro u t hu2 _ _ _
      cases hu2
    · intro u t hu2 _ _ _ _
      cases hu2
  · by_cases hrole : u.role = "participant"
    · have hnrole : ¬(u.role ≠ "participant") := fun h => h hrole
      rcases ht : s.tickets.get tid with _ | t
      · have hres : V1.buyTicket s caller now pay tid =
            (.error (.NotFound ("Ticket with id " ++ toString tid ++ " not found")), s) := by
          unfold V1.buyTicket
          rw [hu]
          dsimp only
          rw [if_neg hnrole, ht]
        refine ⟨⟨?_, ?_⟩, ?_, ?_, ?_, ?_, ?_, ?_⟩
        · rintro ⟨tx, htx⟩
          rw [hres] at htx
          cases htx
        · rintro ⟨-, ⟨t, ht2, -⟩⟩
          cases ht2
        · intro tx htx
          rw [hres] at htx
          cases htx
        · intro h2
          cases h2
        · intro u2 hu2 h2
          cases hu2
          exact absurd hrole h2
        · intro u2 hu2 _ _
          rw [hres]
          exact ⟨_, rfl⟩
        · intro u2 t hu2 _ ht2 _
          cases ht2
        · intro u2 t hu2 _ ht2 _ _
          cases ht2
      · by_cases hpay : t.price = pay
        · by_cases hsold : t.participantId = none
          · have hres : V1.buyTicket s caller now pay tid =
                (.ok { id := s.nextId, mode := "buy", pay := pay, ticketId := tid,
                       senderId := none, participantId := caller, organizerId := t.organizerId,
                       createdAt := now, updatedAt := now },
                 { s with
                   tickets := s.tickets.insert t.id
                     { t with participantId := some caller, updatedAt := now },
                   transactions := s.transactions.insert s.nextId
                     { id := s.nextId, mode := "buy", pay := pay, ticketId := tid,
                       senderId := none, participantId := caller, organizerId := t.organizerId,
                       createdAt := now, updatedAt := now },
                   nextId := s.nextId + 1 }) := by
              unfold V1.buyTicket
              rw [hu]
              dsimp only
              rw [if_neg hnrole, ht]
              dsimp only
              rw [if_neg (fun h => h hpay), if_neg (by rw [hsold]; simp)]
            have hid : t.id = tid := WF.tickets_get_id hwf ht
            refine ⟨⟨?_, ?_⟩, ?_, ?_, ?_, ?_, ?_, ?_⟩
            · intro _
              exact ⟨⟨u, rfl, hrole⟩, ⟨t, rfl, hpay, hsold⟩⟩
            · intro _
              rw [hres]
              exact ⟨_, rfl⟩
            · intro tx htx
              rw [hres] at htx
              simp only at htx
              obtain rfl : _ = tx := by injection htx
              refine ⟨rfl, rfl, rfl, rfl, ⟨t, rfl, ?_⟩, ?_⟩
              · rw [hres]
                show (s.tickets.insert t.id
                  { t with participantId := some caller, updatedAt := now }).get tid = _
                rw [hid]
                exact Store.get_insert_self s.tickets tid _
              · rw [hres]
                show (s.transactions.insert s.nextId _).size = s.transactions.size + 1
                exact Store.size_insert_of_get_none s.transactions s.nextId _
                  (WF.transactions_get_none_nextId hwf)
            · intro h2
              cases h2
            · intro u2 hu2 h2
              cases hu2
              exact absurd hrole h2
            · intro u2 hu2 _ ht2
              cases ht2
            · intro u2 t2 hu2 _ ht2 hp2
              cases ht2
              exact absurd hpay hp2
            · intro u2 t2 hu2 _ ht2 _ hs2
              cases ht2
              exact absurd hsold hs2
          · have hsome : t.participantId.isSome = true := by
              cases hp : t.participantId with
              | none => exact absurd hp hsold
              | some p => rfl
            have hres : V1.buyTicket s caller now pay tid =
                (.error (.BadRequest "Ticket has already been sold"), s) := by
              unfold V1.buyTicket
              rw [hu]
              dsimp only
              rw [if_neg hnrole, ht]
              dsimp only
              rw [if_neg (fun h => h hpay), if_pos hsome]
            refine ⟨⟨?_, ?_⟩, ?_, ?_, ?_, ?_, ?_, ?_⟩
            · rintro ⟨tx, htx⟩
              rw [hres] at htx
              cases htx
            · rintro ⟨-, ⟨t2, ht2, -, hs2⟩⟩
              cases ht2
              exact absurd hs2 hsold
            · intro tx htx
              rw [hres] at htx
              cases htx
            · intro h2
              cases h2
            · intro u2 hu2 h2
              cases hu2
              exact absurd hrole h2
            · intro u2 hu2 _ ht2
              cases ht2
            · intro u2 t2 hu2 _ ht2 hp2
              cases ht2
              exact absurd hpay hp2
            · intro u2 t2 hu2 _ ht2 _ _
              rw [hres]
              exact ⟨_, rfl⟩
        · have hres : V1.buyTicket s caller now pay tid =
              (.error (.BadRequest ("Please pay the exact ticket price: " ++ toString t.price)),
               s) := by
            unfold V1.buyTicket
            rw [hu]
            dsimp only
            rw [if_neg hnrole, ht]
            dsimp only
            rw [if_pos hpay]
          refine ⟨⟨?_, ?_⟩, ?_, ?_, ?_, ?_, ?_, ?_⟩
          · rintro ⟨tx, htx⟩
            rw [hres] at htx
            cases htx
          · rintro ⟨-, ⟨t2, ht2, hp2, -⟩⟩
            cases ht2
            exact absurd hp2 hpay
          · intro tx htx
            rw [hres] at htx
            cases htx
          · intro h2
            cases h2
          · intro u2 hu2 h2
            cases hu2
            exact absurd hrole h2
          · intro u2 hu2 _ ht2
            cases ht2
          · intro u2 t2 hu2 _ ht2 _
            rw [hres]
            exact ⟨_, rfl⟩
          · intro u2 t2 hu2 _ ht2 hp2 _
            cases ht2
            exact absurd hp2 hpay
    · have hres : V1.buyTicket s caller now pay tid =
          (.error (.Forbidden "Only participants can buy tickets"), s) := by
        unfold V1.buyTicket
        rw [hu]
        dsimp only
        rw [if_pos hrole]
      refine ⟨⟨?_, ?_⟩, ?_, ?_, ?_, ?_, ?_, ?_⟩
      · rintro ⟨tx, htx⟩
        rw [hres] at htx
        cases htx
      · rintro ⟨⟨u2, hu2, hr2⟩, -⟩
        cases hu2
        exact absurd hr2 hrole
      · intro tx htx
        rw [hres] at htx
        cases htx
      · intro h2
        cases h2
      · intro u2 hu2 _
        rw [hres]
        exact ⟨_, rfl⟩
      · intro u2 hu2 hr2 _
        cases hu2
        exact absurd hr2 hrole
      · intro u2 t hu2 hr2 _ _
        cases hu2
        exact absurd hr2 hrole
      · intro u2 t hu2 hr2 _ _ _
        cases hu2
        exact absurd hr2 hrole

/-- Witness for C2: on `sampleState`, participant 3 buys the unsold
ticket 10 at its exact price 50, so the success characterization holds. -/
theorem c2_witness :
    (∃ tx, (V1.buyTicket sampleState 3 7 50 10).1 = .ok tx) ∧
    (V1.buyTicket sampleState 3 7 50 10).2.transactions.size =
      sampleState.transactions.size + 1 := by
  have h := c2_buyTicket_spec sampleState 3 7 50 10 (by decide)
  have hok : (∃ tx, (V1.buyTicket sampleState 3 7 50 10).1 = .ok tx) :=
    h.1.mpr ⟨⟨userQ, rfl, rfl⟩, ⟨unsoldTicket, rfl, rfl, rfl⟩⟩
  obtain ⟨tx, htx⟩ := hok
  exact ⟨⟨tx, htx⟩, ((h.2.1 tx htx).2.2.2.2.2)⟩

/-! ## Full specification of transferTicket -/

/-- Claim C3: `transferTicket(ticketId, toParticipantId)` succeeds
exactly when the caller is registered, the receiver is a registered
participant, the caller differs from the receiver, the ticket exists and
its `participantId` equals the caller; on success it reassigns the
ticket to the receiver, refreshes `updatedAt`, and appends one transfer
transaction with `senderId` the caller, `participantId` the receiver and
`pay = 0`.  A caller who is not the current holder fails with
`Forbidden`, and a self-transfer (by a registered participant) fails
with `BadRequest` (InvalidInput in the design taxonomy).  The exactness
of the success condition assumes the reachable-state invariant that
every ticket holder is a registered participant. -/
theorem c3_transferTicket_spec (s : State) (caller receiver : Principal) (now tid : Nat)
    (hwf : s.WF) (hinv : HoldersRegisteredParticipants s) :
    ((∃ tx, (V1.transferTicket s caller now tid receiver).1 = .ok tx) ↔
      ((∃ u, s.users.get caller = some u) ∧
        (∃ u, s.users.get receiver = some u ∧ u.role = "participant") ∧
        caller ≠ receiver ∧
        (∃ t, s.tickets.get tid = some t ∧ t.participantId = some caller))) ∧
    (∀ tx, (V1.transferTicket s caller now tid receiver).1 = .ok tx →
      tx.mode = "transfer" ∧ tx.senderId = some caller ∧ tx.participantId = receiver ∧
      tx.pay = 0 ∧
      (∃ t, s.tickets.get tid = some t ∧
        (V1.transferTicket s caller now tid receiver).2.tickets.get tid =
          some { t with participantId := some receiver, updatedAt := now }) ∧
      (V1.transferTicket s caller now tid receiver).2.transactions.size =
        s.transactions.size + 1) ∧
    (∀ t, (∃ u, s.users.get caller = some u) →
      (∃ u, s.users.get receiver = some u ∧ u.role = "participant") →
      caller ≠ receiver → s.tickets.get tid = some t → t.participantId ≠ some caller →
      ∃ m, (V1.transferTicket s caller now tid receiver).1 = .error (.Forbidden m)) ∧
    (∀ u, s.users.get caller = some u → u.role = "participant" → receiver = caller →
      ∃ m, (V1.transferTicket s caller now tid receiver).1 = .error (.BadRequest m)) := by
  rcases hu : s.users.get caller with _ | sender
  · have hres : V1.transferTicket s caller now tid receiver =
        (.error (.Unauthorized "Create an account first"), s) := by
      unfold V1.transferTicket
      rw [hu]
    refine ⟨⟨?_, ?_⟩, ?_, ?_, ?_⟩
    · rintro ⟨tx, htx⟩
      rw [hres] at htx
      cases htx
    · rintro ⟨⟨u, hu2⟩, -⟩
      cases hu2
    · intro tx htx
      rw [hres] at htx
      cases htx
    · rintro t ⟨u, hu2⟩ - - - -
      cases hu2
    · intro u hu2 _ _
      cases hu2
  · rcases hr : s.users.get receiver with _ | recvU
    · have hres : V1.transferTicket s caller now tid receiver =
          (.error (.NotFound ("User with id " ++ toString receiver ++ " not found")), s) := by
        unfold V1.transferTicket
        rw [hu]
        dsimp only
        rw [hr]
      refine ⟨⟨?_, ?_⟩, ?_, ?_, ?_⟩
      · rintro ⟨tx, htx⟩
        rw [hres] at htx
        cases htx
      · rintro ⟨-, ⟨u, hu2, -⟩, -⟩
        cases hu2
      · intro tx htx
        rw [hres] at htx
        cases htx
      · rintro t - ⟨u, hu2, -⟩ - - -
        cases hu2
      · intro u hu2 _ hrc
        rw [hrc] at hr
        rw [hu] at hr
        cases hr
    · by_cases hs : sender.role = "participant"
      · by_cases hrp : recvU.role = "participant"
        · by_cases hself : caller = receiver
          · have hres : V1.transferTicket s caller now tid receiver =
                (.error (.BadRequest "You cannot transfer to yourself"), s) := by
              unfold V1.transferTicket
              rw [hu]
              dsimp only
              rw [hr]
              dsimp only
              rw [if_neg (fun h => h hs), if_neg (fun h => h hrp), if_pos hself]
            refine ⟨⟨?_, ?_⟩, ?_, ?_, ?_⟩
            · rintro ⟨tx, htx⟩
              rw [hres] at htx
              cases htx
            · rintro ⟨-, -, hne, -⟩
              exact absurd hself hne
            · intro tx htx
              rw [hres] at htx
              cases htx
            · rintro t - - hne - -
              exact absurd hself hne
            · intro u hu2 _ _
              rw [hres]
              exact ⟨_, rfl⟩
          · rcases ht : s.tickets.get tid with _ | t
            · have hres : V1.transferTicket s caller now tid receiver =
                  (.error (.NotFound ("Ticket with id " ++ toString tid ++ " not found")),
                   s) := by
                unfold V1.transferTicket
                rw [hu]
                dsimp only
                rw [hr]
                dsimp only
                rw [if_neg (fun h => h hs), if_neg (fun h => h hrp), if_neg hself, ht]
              refine ⟨⟨?_, ?_⟩, ?_, ?_, ?_⟩
              · rintro ⟨tx, htx⟩
                rw [hres] at htx
                cases htx
              · rintro ⟨-, -, -, ⟨t, ht2, -⟩⟩
                cases ht2
              · intro tx htx
                rw [hres] at htx
                cases htx
              · rintro t - - - ht2 -
                cases ht2
              · intro u hu2 _ hrc
                exact absurd hrc.symm hself
            · by_cases hown : t.participantId = some caller
              · have hres : V1.transferTicket s caller now tid receiver =
                    (.ok { id := s.nextId, mode := "transfer", pay := 0, ticketId := t.id,
                           senderId := some caller, participantId := receiver,
                           organizerId := t.organizerId, createdAt := now, updatedAt := now },
                     { s with
                       tickets := s.tickets.insert t.id
                         { t with participantId := some receiver, updatedAt := now },
                       transactions := s.transactions.insert s.nextId
                         { id := s.nextId, mode := "transfer", pay := 0, ticketId := t.id,
                           senderId := some caller, participantId := receiver,
                           organizerId := t.organizerId, createdAt := now, updatedAt := now },
                       nextId := s.nextId + 1 }) := by
                  unfold V1.transferTicket
                  rw [hu]
                  dsimp only
                  rw [hr]
                  dsimp only
                  rw [if_neg (fun h => h hs), if_neg (fun h => h hrp), if_neg hself, ht]
                  dsimp only
                  rw [if_neg (fun h => h hown)]
                have hid : t.id = tid := WF.tickets_get_id hwf ht
                refine ⟨⟨?_, ?_⟩, ?_, ?_, ?_⟩
                · intro _
                  exact ⟨⟨sender, rfl⟩, ⟨recvU, rfl, hrp⟩, hself, ⟨t, rfl, hown⟩⟩
                · intro _
                  rw [hres]
                  exact ⟨_, rfl⟩
                · intro tx htx
                  rw [hres] at htx
                  simp only at htx
                  obtain rfl : _ = tx := by injection htx
                  refine ⟨rfl, rfl, rfl, rfl, ⟨t, rfl, ?_⟩, ?_⟩
                  · rw [hres]
                    show (s.tickets.insert t.id
                      { t with participantId := some receiver, updatedAt := now }).get tid = _
                    rw [hid]
                    exact Store.get_insert_self s.tickets tid _
                  · rw [hres]
                    show (s.transactions.insert s.nextId _).size = s.transactions.size + 1
                    exact Store.size_insert_of_get_none s.transactions s.nextId _
                      (WF.transactions_get_none_nextId hwf)
                · rintro t2 - - - ht2 hno
                  cases ht2
                  exact absurd hown hno
                · intro u hu2 _ hrc
                  exact absurd hrc.symm hself
              · have hres : V1.transferTicket s caller now tid receiver =
                    (.error (.Forbidden "Only ticket owner can transfer it"), s) := by
                  unfold V1.transferTicket
                  rw [hu]
                  dsimp only
                  rw [hr]
                  dsimp only
                  rw [if_neg (fun h => h hs), if_neg (fun h => h hrp), if_neg hself, ht]
                  dsimp only
                  rw [if_pos hown]
                refine ⟨⟨?_, ?_⟩, ?_, ?_, ?_⟩
                · rintro ⟨tx, htx⟩
                  rw [hres] at htx
                  cases htx
                · rintro ⟨-, -, -, ⟨t2, ht2, hp2⟩⟩
                  cases ht2
                  exact absurd hp2 hown
                · intro tx htx
                  rw [hres] at htx
                  cases htx
                · rintro t2 - - - - -
                  rw [hres]
                  exact ⟨_, rfl⟩
                · intro u hu2 _ hrc
                  exact absurd hrc.symm hself
        · have hres : V1.transferTicket s caller now tid receiver =
              (.error (.Forbidden "Only participants can receive tickets"), s) := by
            unfold V1.transferTicket
            rw [hu]
            dsimp only
            rw [hr]
            dsimp only
            rw [if_neg (fun h => h hs), if_pos hrp]
          refine ⟨⟨?_, ?_⟩, ?_, ?_, ?_⟩
          · rintro ⟨tx, htx⟩
            rw [hres] at htx
            cases htx
          · rintro ⟨-, ⟨u, hu2, hur⟩, -⟩
            cases hu2
            exact absurd hur hrp
          · intro tx htx
            rw [hres] at htx
            cases htx
          · rintro t - ⟨u, hu2, hur⟩ - - -
            cases hu2
            exact absurd hur hrp
          · intro u hu2 hup hrc
            rw [hrc] at hr
            rw [hu] at hr
            cases hu2
            cases hr
            exact absurd hup hrp
      · have hres : V1.transferTicket s caller now tid receiver =
            (.error (.Forbidden "Only participants can transfer tickets"), s) := by
          unfold V1.transferTicket
          rw [hu]
          dsimp only
          rw [hr]
          dsimp only
          rw [if_pos hs]
        refine ⟨⟨?_, ?_⟩, ?_, ?_, ?_⟩
        · rintro ⟨tx, htx⟩
          rw [hres] at htx
          cases htx
        · rintro ⟨-, -, -, ⟨t, ht2, hp2⟩⟩
          have hmem := Store.get_eq_some_mem s.tickets tid t ht2
          have hok := hinv (tid, t) hmem
          unfold holderOk at hok
          simp only [hp2, hu, beq_iff_eq] at hok
          exact absurd hok hs
        · intro tx htx
          rw [hres] at htx
          cases htx
        · rintro t - - - - -
          rw [hres]
          exact ⟨_, rfl⟩
        · intro u hu2 hup _
          cases hu2
          exact absurd hup hs

/-- Witness for C3: on `sampleState`, participant 2 holds ticket 11 and
transfers it to participant 3; the success characterization applies. -/
theorem c3_witness :
    ∃ tx, (V1.transferTicket sampleState 2 7 11 3).1 = .ok tx :=
  (c3_transferTicket_spec sampleState 2 3 7 11 (by decide) (by decide)).1.mpr
    ⟨⟨userP, rfl⟩, ⟨userQ, rfl, rfl⟩, by decide, ⟨soldTicket, rfl, rfl⟩⟩

/-! ## Batch issuance -/

theorem createTickets_ok_shape (s : State) (caller : Principal) (now quantity : Nat)
    (role : String) (price eventId : Nat) (ts : List Ticket) :
    (V1.createTickets s caller now quantity role price eventId).1 = .ok ts →
    ts = V1.ticketBatch caller now role price eventId s.nextId quantity ∧
    (V1.createTickets s caller now quantity role price eventId).2 =
      { s with tickets := V1.insertTickets s.tickets ts, nextId := s.nextId + quantity } := by
  unfold V1.createTickets
  split
  · intro h
    cases h
  · split
    · intro h
      cases h
    · split
      · intro h
        cases h
      · split
        · intro h
          cases h
        · split
          · intro h
            cases h
          · split
            · intro h
              cases h
            · intro h
              simp only at h
              obtain rfl : _ = ts := by injection h
              exact ⟨rfl, rfl⟩

/-- Claim C4: when `createTickets` succeeds it returns and stores exactly
`quantity` new tickets, all carrying the requested `role`, `price` and
`eventId`, each with empty `participantId` and a fresh identifier, the
identifiers pairwise distinct, and the ticket store grows by exactly
`quantity`; when it fails, the state is unchanged (zero tickets added). -/
theorem c4_createTickets_spec (s : State) (caller : Principal) (now quantity : Nat)
    (role : String) (price eventId : Nat) (hwf : s.WF) :
    (∀ ts, (V1.createTickets s caller now quantity role price eventId).1 = .ok ts →
      ts.length = quantity ∧
      (∀ t ∈ ts, t.role = role ∧ t.price = price ∧ t.eventId = eventId ∧
        t.participantId = none) ∧
      (ts.map Ticket.id).Nodup ∧
      (∀ t ∈ ts, s.tickets.get t.id = none) ∧
      (∀ t ∈ ts,
        (V1.createTickets s caller now quantity role price eventId).2.tickets.get t.id =
          some t) ∧
      (V1.createTickets s caller now quantity role price eventId).2.tickets.size =
        s.tickets.size + quantity) ∧
    (∀ e, (V1.createTickets s caller now quantity role price eventId).1 = .error e →
      (V1.createTickets s caller now quantity role price eventId).2 = s) := by
  constructor
  · intro ts hts
    obtain ⟨hteq, hst⟩ := createTickets_ok_shape s caller now quantity role price eventId ts hts
    subst hteq
    have hnd := nodup_ticketBatch_ids caller now role price eventId s.nextId quantity
    have hfresh : ∀ t ∈ V1.ticketBatch caller now role price eventId s.nextId quantity,
        s.tickets.get t.id = none := by
      intro t htm
      obtain ⟨-, -, -, -, -, hlo, -⟩ :=
        mem_ticketBatch caller now role price eventId s.nextId quantity t htm
      exact WF.tickets_get_none_of_ge hwf hlo
    refine ⟨length_ticketBatch caller now role price eventId s.nextId quantity, ?_, hnd,
      hfresh, ?_, ?_⟩
    · intro t htm
      obtain ⟨h1, h2, h3, h4, -⟩ :=
        mem_ticketBatch caller now role price eventId s.nextId quantity t htm
      exact ⟨h1, h2, h3, h4⟩
    · intro t htm
      rw [hst]
      exact get_insertTickets_mem s.tickets _ hnd t htm
    · rw [hst]
      show (V1.insertTickets s.tickets _).size = _
      rw [size_insertTickets s.tickets _ hnd hfresh,
        length_ticketBatch caller now role price eventId s.nextId quantity]
  · exact V1.createTickets_error_frame s caller now quantity role price eventId

/-- Witness for C4: issuing 2 vip tickets on `sampleState` grows the
ticket store by exactly 2. -/
theorem c4_witness :
    (V1.createTickets sampleState 1 0 2 "vip" 9 0).2.tickets.size =
      sampleState.tickets.size + 2 :=
  ((c4_createTickets_spec sampleState 1 0 2 "vip" 9 0 (by decide)).1
    (V1.ticketBatch 1 0 "vip" 9 0 12 2) rfl).2.2.2.2.2

/-! ## Quantity and price validation: the two variants disagree -/

/-- Counterexample for C5: in the `src/index.ts` variant, an organizer
calling `createTickets` with `quantity = 0` SUCCEEDS with an empty batch
(and the state unchanged) instead of returning an error; that variant
also never validates `price > 0`. -/
theorem c5_counterexample :
    (V1.createTickets sampleState 1 0 0 "regular" 50 0).1 = .ok ([] : List Ticket) ∧
    (V1.createTickets sampleState 1 0 0 "regular" 50 0).2 = sampleState :=
  ⟨rfl, rfl⟩

/-- Claim C5 (amended): in the helper-based variant, `createTickets` by a
registered organizer fails with `BadRequest` whenever `quantity = 0`,
`price = 0` or the ticket role is not vvip/vip/regular, and every call
with `quantity = 0` (by any caller) returns an error and leaves the
state unchanged.  In the `src/index.ts` variant these validations are
absent and `quantity = 0` yields a successful empty batch. -/
theorem c5_amended_validated_variant (s : State) (caller : Principal)
    (now quantity : Nat) (role : String) (price eventId : Nat) :
    (∀ u, s.users.get caller = some u → u.role = "organizer" →
      (quantity = 0 ∨ price = 0 ∨ role ∉ TICKET_ROLES) →
      ∃ m, (V2.createTickets s caller now quantity role price eventId).1 =
        .error (.BadRequest m)) ∧
    (quantity = 0 →
      (∃ e, (V2.createTickets s caller now quantity role price eventId).1 = .error e) ∧
      (V2.createTickets s caller now quantity role price eventId).2 = s) := by
  constructor
  · intro u hu horg hbad
    unfold V2.createTickets
    rw [hu]
    dsimp only
    rw [if_neg (fun h => h horg)]
    by_cases hg : (quantity == 0 || price == 0 || isStringEmpty role) = true
    · rw [if_pos hg]
      exact ⟨_, rfl⟩
    · rw [if_neg hg]
      have hq : ¬(quantity == 0) = true := fun hc => hg (by simp [hc])
      have hp : ¬(price == 0) = true := fun hc => hg (by simp [hc])
      rw [if_neg hq, if_neg hp]
      have hrole : role ∉ TICKET_ROLES := by
        rcases hbad with h0 | h0 | h0
        · exact absurd (by simp [h0]) hq
        · exact absurd (by simp [h0]) hp
        · exact h0
      rw [if_pos hrole]
      exact ⟨_, rfl⟩
  · intro hq0
    subst hq0
    rcases hu : s.users.get caller with _ | u
    · have hres : V2.createTickets s caller now 0 role price eventId =
          (.error (.Unauthorized "Create an account first"), s) := by
        unfold V2.createTickets
        rw [hu]
      rw [hres]
      exact ⟨⟨_, rfl⟩, rfl⟩
    · by_cases horg : u.role = "organizer"
      · have hres : V2.createTickets s caller now 0 role price eventId =
            (.error (.BadRequest "Quantity, role, price and event ID cannot be empty"), s) := by
          unfold V2.createTickets
          rw [hu]
          dsimp only
          rw [if_neg (fun h => h horg),
            if_pos (show (0 == 0 || price == 0 || isStringEmpty role) = true from rfl)]
        rw [hres]
        exact ⟨⟨_, rfl⟩, rfl⟩
      · have hres : V2.createTickets s caller now 0 role price eventId =
            (.error (.Forbidden "Only organizers can create tickets"), s) := by
          unfold V2.createTickets
          rw [hu]
          dsimp only
          rw [if_pos horg]
        rw [hres]
        exact ⟨⟨_, rfl⟩, rfl⟩

/-- Witness for C5 (amended): a `quantity = 0` call on `sampleState`
errors and leaves the state unchanged in the helper-based variant. -/
theorem c5_witness :
    (∃ e, (V2.createTickets sampleState 1 0 0 "regular" 9 0).1 = .error e) ∧
    (V2.createTickets sampleState 1 0 0 "regular" 9 0).2 = sampleState :=
  (c5_amended_validated_variant sampleState 1 0 0 "regular" 9 0).2 rfl

/-! ## Event-date validation: the two variants disagree -/

/-- Counterexample for C6: in the `src/index.ts` variant, `createEvent`
with `date` exactly equal to the current time SUCCEEDS and the event is
stored (the guard is `date < now`, not `date <= now`; `name` and
`location` are not validated there at all). -/
theorem c6_counterexample :
    (V1.createEvent sampleState 1 100 "Gala" 100 "Hall").1 =
      .ok { id := 12, name := "Gala", date := 100, location := "Hall", organizerId := 1,
            createdAt := 100, updatedAt := 100 } ∧
    (V1.createEvent sampleState 1 100 "Gala" 100 "Hall").2.events.get 12 =
      some { id := 12, name := "Gala", date := 100, location := "Hall", organizerId := 1,
             createdAt := 100, updatedAt := 100 } :=
  ⟨rfl, rfl⟩

/-- Claim C6 (amended): in the helper-based variant, `createEvent` by a
registered organizer fails with `BadRequest` whenever `name` or
`location` is blank or `date ≤ now`, leaving the state unchanged; in
particular every call with `date = now` (by any caller) fails and stores
nothing.  In the `src/index.ts` variant `name`/`location` are not
validated and `date = now` is accepted. -/
theorem c6_amended_validated_variant (s : State) (caller : Principal) (now : Nat)
    (name : String) (date : Nat) (location : String) :
    (∀ u, s.users.get caller = some u → u.role = "organizer" →
      (isStringEmpty name = true ∨ isStringEmpty location = true ∨ date ≤ now) →
      ∃ m, (V2.createEvent s caller now name date location).1 = .error (.BadRequest m) ∧
        (V2.createEvent s caller now name date location).2 = s) ∧
    (date = now →
      (∃ e, (V2.createEvent s caller now name date location).1 = .error e) ∧
      (V2.createEvent s caller now name date location).2 = s) := by
  constructor
  · intro u hu horg hbad
    unfold V2.createEvent
    rw [hu]
    dsimp only
    rw [if_neg (fun h => h horg)]
    by_cases hg : (isStringEmpty name || isStringEmpty location || (date == 0)) = true
    · rw [if_pos hg]
      exact ⟨_, rfl, rfl⟩
    · rw [if_neg hg]
      have hn : ¬isStringEmpty name = true := fun hc => hg (by simp [hc])
      have hl : ¬isStringEmpty location = true := fun hc => hg (by simp [hc])
      have hdate : date ≤ now := by
        rcases hbad with h0 | h0 | h0
        · exact absurd h0 hn
        · exact absurd h0 hl
        · exact h0
      rw [if_pos hdate]
      exact ⟨_, rfl, rfl⟩
  · intro hdn
    subst hdn
    rcases hu : s.users.get caller with _ | u
    · have hres : V2.createEvent s caller date name date location =
          (.error (.Unauthorized "Create an account first"), s) := by
        unfold V2.createEvent
        rw [hu]
      rw [hres]
      exact ⟨⟨_, rfl⟩, rfl⟩
    · by_cases horg : u.role = "organizer"
      · by_cases hg : (isStringEmpty name || isStringEmpty location || (date == 0)) = true
        · have hres : V2.createEvent s caller date name date location =
              (.error (.BadRequest "Name, date and location cannot be empty"), s) := by
            unfold V2.createEvent
            rw [hu]
            dsimp only
            rw [if_neg (fun h => h horg), if_pos hg]
          rw [hres]
          exact ⟨⟨_, rfl⟩, rfl⟩
        · have hres : V2.createEvent s caller date name date location =
              (.error (.BadRequest "Date must be a date in the future"), s) := by
            unfold V2.createEvent
            rw [hu]
            dsimp only
            rw [if_neg (fun h => h horg), if_neg hg, if_pos (le_refl date)]
          rw [hres]
          exact ⟨⟨_, rfl⟩, rfl⟩
      · have hres : V2.createEvent s caller date name date location =
            (.error (.Forbidden "Only organizers can create events"), s) := by
          unfold V2.createEvent
          rw [hu]
          dsimp only
          rw [if_pos horg]
        rw [hres]
        exact ⟨⟨_, rfl⟩, rfl⟩

/-- Witness for C6 (amended): a `date = now` call on `sampleState`
errors and leaves the state unchanged in the helper-based variant. -/
theorem c6_witness :
    (∃ e, (V2.createEvent sampleState 1 100 "Gala" 100 "Hall").1 = .error e) ∧
    (V2.createEvent sampleState 1 100 "Gala" 100 "Hall").2 = sampleState :=
  (c6_amended_validated_variant sampleState 1 100 "Gala" 100 "Hall").2 rfl

/-! ## The empty-name registration defect -/

/-- Claim C7 (code defect): registering with an empty `name` and a valid
role SUCCEEDS in both variants and stores a User with empty name.  The
helper-based variant constructs the empty-name `BadRequest` error but
lacks the `return`, so the value is discarded; the `src/index.ts`
variant has no name validation at all.  The claim (and the clear intent
of the dead guard) is that such a call should fail with no User
stored. -/
theorem c7_emptyName_accepted :
    (V2.createUser initState 7 0 "" "participant").1 =
      .ok { id := 7, name := "", role := "participant", createdAt := 0, updatedAt := 0 } ∧
    (V2.createUser initState 7 0 "" "participant").2.users.get 7 =
      some { id := 7, name := "", role := "participant", createdAt := 0, updatedAt := 0 } ∧
    (V1.createUser initState 7 0 "" "participant").1 =
      .ok { id := 7, name := "", role := "participant", createdAt := 0, updatedAt := 0 } :=
  ⟨rfl, rfl, rfl⟩

/-! ## Error atomicity across the whole operation surface -/

/-- Claim C8: in both variants, every state-mutating operation that
returns an error leaves the entire state (users, events, tickets,
transactions, identifier counter) exactly as it was; and a successful
`buyTicket` / `transferTicket` updates the targeted ticket and appends
exactly one transaction (so each of the two either does both or does
neither). -/
theorem c8_errors_leave_state_unchanged (s : State) (caller receiver : Principal)
    (now quantity pay price tid eid date : Nat) (name role location : String)
    (hwf : s.WF) :
    (∀ e, (V1.createUser s caller now name role).1 = .error e →
      (V1.createUser s caller now name role).2 = s) ∧
    (∀ e, (V1.createEvent s caller now name date location).1 = .error e →
      (V1.createEvent s caller now name date location).2 = s) ∧
    (∀ e, (V1.createTickets s caller now quantity role price eid).1 = .error e →
      (V1.createTickets s caller now quantity role price eid).2 = s) ∧
    (∀ e, (V1.buyTicket s caller now pay tid).1 = .error e →
      (V1.buyTicket s caller now pay tid).2 = s) ∧
    (∀ e, (V1.transferTicket s caller now tid receiver).1 = .error e →
      (V1.transferTicket s caller now tid receiver).2 = s) ∧
    (∀ e, (V2.createUser s caller now name role).1 = .error e →
      (V2.createUser s caller now name role).2 = s) ∧
    (∀ e, (V2.createEvent s caller now name date location).1 = .error e →
      (V2.createEvent s caller now name date location).2 = s) ∧
    (∀ e, (V2.createTickets s caller now quantity role price eid).1 = .error e →
      (V2.createTickets s caller now quantity role price eid).2 = s) ∧
    (∀ e, (V2.buyTicket s caller now pay tid).1 = .error e →
      (V2.buyTicket s caller now pay tid).2 = s) ∧
    (∀ e, (V2.transferTicket s caller now tid receiver).1 = .error e →
      (V2.transferTicket s caller now tid receiver).2 = s) ∧
    (∀ tx, (V1.buyTicket s caller now pay tid).1 = .ok tx →
      (V1.buyTicket s caller now pay tid).2.transactions.size = s.transactions.size + 1 ∧
      (∃ t, s.tickets.get tid = some t ∧
        (V1.buyTicket s caller now pay tid).2.tickets.get tid =
          some { t with participantId := some caller, updatedAt := now })) ∧
    (∀ tx, (V1.transferTicket s caller now tid receiver).1 = .ok tx →
      (V1.transferTicket s caller now tid receiver).2.transactions.size =
        s.transactions.size + 1 ∧
      (∃ t, s.tickets.get tid = some t ∧
        (V1.transferTicket s caller now tid receiver).2.tickets.get tid =
          some { t with participantId := some receiver, updatedAt := now })) := by
  refine ⟨V1.createUser_error_frame s caller now name role,
    V1.createEvent_error_frame s caller now name date location,
    V1.createTickets_error_frame s caller now quantity role price eid,
    V1.buyTicket_error_frame s caller now pay tid,
    V1.transferTicket_error_frame s caller now tid receiver,
    V2.createUser_error_frame_v2 s caller now name role,
    V2.createEvent_error_frame_v2 s caller now name date location,
    V2.createTickets_error_frame_v2 s caller now quantity role price eid,
    V2.buyTicket_error_frame_v2 s caller now pay tid,
    V2.transferTicket_error_frame_v2 s caller now tid receiver,
    ?_, ?_⟩
  · intro tx
    unfold V1.buyTicket
    split
    · intro h
      cases h
    · split
      · intro h
        cases h
      · split
        · intro h
          cases h
        · next t heq =>
          split
          · intro h
            cases h
          · split
            · intro h
              cases h
            · intro _
              have hid : t.id = tid := WF.tickets_get_id hwf heq
              constructor
              · exact Store.size_insert_of_get_none s.transactions s.nextId _
                  (WF.transactions_get_none_nextId hwf)
              · refine ⟨t, heq, ?_⟩
                show (s.tickets.insert t.id
                  { t with participantId := some caller, updatedAt := now }).get tid = _
                rw [hid]
                exact Store.get_insert_self s.tickets tid _
  · intro tx
    unfold V1.transferTicket
    split
    · intro h
      cases h
    · split
      · intro h
        cases h
      · split
        · intro h
          cases h
        · split
          · intro h
            cases h
          · split
            · intro h
              cases h
            · split
              · intro h
                cases h
              · next t heq =>
                split
                · intro h
                  cases h
                · intro _
                  have hid : t.id = tid := WF.tickets_get_id hwf heq
                  constructor
                  · exact Store.size_insert_of_get_none s.transactions s.nextId _
                      (WF.transactions_get_none_nextId hwf)
                  · refine ⟨t, heq, ?_⟩
                    show (s.tickets.insert t.id
                      { t with participantId := some receiver, updatedAt := now }).get tid = _
                    rw [hid]
                    exact Store.get_insert_self s.tickets tid _

/-- Witness for C8: on `sampleState`, a duplicate registration by
caller 1 errors and the state is exactly unchanged. -/
theorem c8_witness :
    (V1.createUser sampleState 1 0 "X" "participant").2 = sampleState :=
  (c8_errors_leave_state_unchanged sampleState 1 2 0 1 50 9 10 0 5 "X" "participant" "L"
    (by decide)).1 (Error.BadRequest "You already have an account") rfl

/-! ## The role-dependent ticket listing -/

/-- Claim C9: `getMyTickets` is role-dependent: a registered organizer
receives exactly the stored tickets whose `organizerId` is the caller
(the tickets they issued), while a registered participant receives
exactly the stored tickets whose `participantId` is the caller (the
tickets they currently hold). -/
theorem c9_getMyTickets_role_dependent (s : State) (caller : Principal) (u : User)
    (hu : s.users.get caller = some u) :
    (u.role = "organizer" →
      ∃ ts, V1.getMyTickets s caller = .ok ts ∧
        ∀ t, t ∈ ts ↔ (t ∈ s.tickets.values ∧ t.organizerId = caller)) ∧
    (u.role = "participant" →
      ∃ ts, V1.getMyTickets s caller = .ok ts ∧
        ∀ t, t ∈ ts ↔ (t ∈ s.tickets.values ∧ t.participantId = some caller)) := by
  constructor
  · intro horg
    have hfun : (fun t : Ticket => if u.role = "organizer" then t.organizerId == caller
        else t.participantId == some caller) = fun t : Ticket => t.organizerId == caller :=
      funext fun t => if_pos horg
    refine ⟨s.tickets.values.filter (fun t => t.organizerId == caller), ?_, ?_⟩
    · unfold V1.getMyTickets
      rw [hu]
      dsimp only
      rw [hfun]
    · intro t
      simp [List.mem_filter, beq_iff_eq]
  · intro hpart
    have hne : ¬ u.role = "organizer" := by
      rw [hpart]
      decide
    have hfun : (fun t : Ticket => if u.role = "organizer" then t.organizerId == caller
        else t.participantId == some caller) =
        fun t : Ticket => t.participantId == some caller :=
      funext fun t => if_neg hne
    refine ⟨s.tickets.values.filter (fun t => t.participantId == some caller), ?_, ?_⟩
    · unfold V1.getMyTickets
      rw [hu]
      dsimp only
      rw [hfun]
    · intro t
      simp [List.mem_filter, beq_iff_eq]

/-- Witness for C9: participant 2 on `sampleState` gets exactly the
tickets they hold. -/
theorem c9_witness :
    ∃ ts, V1.getMyTickets sampleState 2 = .ok ts ∧
      ∀ t, t ∈ ts ↔ (t ∈ sampleState.tickets.values ∧ t.participantId = some 2) :=
  (c9_getMyTickets_role_dependent sampleState 2 userP rfl).2 rfl

/-! ## Frame of a successful sale or transfer -/

/-- Claim C10: a successful `buyTicket` or `transferTicket` modifies
only the `participantId` and `updatedAt` fields of the one targeted
ticket: every other field of that ticket, every other ticket, and the
User and Event stores are unchanged (the transaction ledger, by design,
gains one record). -/
theorem c10_success_frame (s : State) (caller receiver : Principal) (now pay tid : Nat)
    (hwf : s.WF) :
    (∀ tx, (V1.buyTicket s caller now pay tid).1 = .ok tx →
      (V1.buyTicket s caller now pay tid).2.users = s.users ∧
      (V1.buyTicket s caller now pay tid).2.events = s.events ∧
      (∀ k, k ≠ tid →
        (V1.buyTicket s caller now pay tid).2.tickets.get k = s.tickets.get k) ∧
      (∃ t, s.tickets.get tid = some t ∧
        (V1.buyTicket s caller now pay tid).2.tickets.get tid =
          some { t with participantId := some caller, updatedAt := now })) ∧
    (∀ tx, (V1.transferTicket s caller now tid receiver).1 = .ok tx →
      (V1.transferTicket s caller now tid receiver).2.users = s.users ∧
      (V1.transferTicket s caller now tid receiver).2.events = s.events ∧
      (∀ k, k ≠ tid →
        (V1.transferTicket s caller now tid receiver).2.tickets.get k = s.tickets.get k) ∧
      (∃ t, s.tickets.get tid = some t ∧
        (V1.transferTicket s caller now tid receiver).2.tickets.get tid =
          some { t with participantId := some receiver, updatedAt := now })) := by
  constructor
  · intro tx
    unfold V1.buyTicket
    split
    · intro h
      cases h
    · split
      · intro h
        cases h
      · split
        · intro h
          cases h
        · next t heq =>
          split
          · intro h
            cases h
          · split
            · intro h
              cases h
            · intro _
              have hid : t.id = tid := WF.tickets_get_id hwf heq
              refine ⟨rfl, rfl, ?_, t, heq, ?_⟩
              · intro k hk
                show (s.tickets.insert t.id
                  { t with participantId := some caller, updatedAt := now }).get k =
                    s.tickets.get k
                exact Store.get_insert_ne s.tickets t.id k _ (by rw [hid]; exact hk)
              · show (s.tickets.insert t.id
                  { t with participantId := some caller, updatedAt := now }).get tid = _
                rw [hid]
                exact Store.get_insert_self s.tickets tid _
  · intro tx
    unfold V1.transferTicket
    split
    · intro h
      cases h
    · split
      · intro h
        cases h
      · split
        · intro h
          cases h
        · split
          · intro h
            cases h
          · split
            · intro h
              cases h
            · split
              · intro h
                cases h
              · next t heq =>
                split
                · intro h
                  cases h
                · intro _
                  have hid : t.id = tid := WF.tickets_get_id hwf heq
                  refine ⟨rfl, rfl, ?_, t, heq, ?_⟩
                  · intro k hk
                    show (s.tickets.insert t.id
                      { t with participantId := some receiver, updatedAt := now }).get k =
                        s.tickets.get k
                    exact Store.get_insert_ne s.tickets t.id k _ (by rw [hid]; exact hk)
                  · show (s.tickets.insert t.id
                      { t with participantId := some receiver, updatedAt := now }).get tid = _
                    rw [hid]
                    exact Store.get_insert_self s.tickets tid _

/-- Witness for C10: participant 3 buys ticket 10 on `sampleState`; the
user and event stores are untouched and the other ticket is intact. -/
theorem c10_witness :
    (V1.buyTicket sampleState 3 7 50 10).2.users = sampleState.users ∧
    (V1.buyTicket sampleState 3 7 50 10).2.events = sampleState.events ∧
    (V1.buyTicket sampleState 3 7 50 10).2.tickets.get 11 = sampleState.tickets.get 11 := by
  have h := (c10_success_frame sampleState 3 2 7 50 10 (by decide)).1
    { id := 12, mode := "buy", pay := 50, ticketId := 10, senderId := none,
      participantId := 3, organizerId := 1, createdAt := 7, updatedAt := 7 } rfl
  exact ⟨h.1, h.2.1, h.2.2.1 11 (by decide)⟩

end TicketingICP
